import Mathlib

/-!
Verification of the `win-nightlight-lib` binary codec.

The development shallowly embeds the Rust sources:
* `consts.rs` — the sentinel/magic byte constants;
* `parser.rs` — the timestamp and color-temperature codecs and the shared
  timestamp-block parser;
* `nightlight_settings.rs` — the Settings record codec and its mutators;
* `nightlight_state.rs` — the State record codec and its mutators.

Bytes are modelled as `Nat` (`u8` casts appear as `% 256`, wrapping `u8`
arithmetic as explicit `% 256` arithmetic, and the Rust bitwise operators as
the corresponding `Nat` bitwise operators).  Byte buffers (`&[u8]`, `Vec<u8>`)
are `List Nat`.  Rust index/slice out-of-bounds panics are modelled by an
explicit `oob` outcome, kept separate from the `DeserializationError` values
the code returns.
-/

/-- A single byte value. -/
abbrev Byte := Nat

/-- A byte buffer (`&[u8]` / `Vec<u8>`). -/
abbrev Bytes := List Nat

/-- `DeserializationError` from `parser.rs`. -/
inductive DeserializationError where
  | StructStart
  | StructEnd
  | TimestampBlock
  | SliceArrayConversion
  | InvalidBlock (tag : String)
  | InvalidTimeValue
deriving DecidableEq

/-- How a run of parsing code can go wrong: a Rust panic from out-of-bounds
indexing/slicing (`oob`), or a returned `DeserializationError`. -/
inductive RunError where
  | oob
  | err (e : DeserializationError)
deriving DecidableEq

/-- Result of running fallible parsing code. -/
abbrev PResult (α : Type) := Except RunError α

instance {ε α : Type} [DecidableEq ε] [DecidableEq α] : DecidableEq (Except ε α) := fun x y =>
  match x, y with
  | .ok a, .ok b => if h : a = b then .isTrue (by simp [h]) else .isFalse (by simp [h])
  | .ok _, .error _ => .isFalse (by simp)
  | .error _, .ok _ => .isFalse (by simp)
  | .error e, .error f => if h : e = f then .isTrue (by simp [h]) else .isFalse (by simp [h])

/-- Rust slice indexing `data[a..b]`: panics unless `a ≤ b` and `b ≤ data.len()`. -/
def slice? (data : Bytes) (a b : Nat) : PResult Bytes :=
  if a ≤ b ∧ b ≤ data.length then .ok ((data.drop a).take (b - a)) else .error .oob

/-- Rust indexing `data[i]`: panics when `i` is out of bounds. -/
def readByte (data : Bytes) (i : Nat) : PResult Byte :=
  match data[i]? with
  | some b => .ok b
  | none => .error .oob

/-- Rust `TryInto` from a slice to a fixed-size array `[u8; n]`: succeeds iff the
slice length equals `n`; the `map_err` in the callers turns the failure into
`DeserializationError::SliceArrayConversion`. -/
def try_into_array (s : Bytes) (n : Nat) : PResult Bytes :=
  if s.length = n then .ok s else .error (.err .SliceArrayConversion)

/-! ### Constants from `consts.rs` -/

def STRUCT_HEADER_BYTES : Bytes := [0x43, 0x42, 0x01, 0x00]

def STRUCT_FOOTER_BYTES : Bytes := [0x00, 0x00, 0x00, 0x00]

def TIMESTAMP_HEADER_BYTES : Bytes := [0x0A, 0x02, 0x01, 0x00]

def TIMESTAMP_PREFIX_BYTES : Bytes := [0x2A, 0x06]

def TIMESTAMP_SIZE : Nat := 5

def TIMESTAMP_SUFFIX_BYTES : Bytes := [0x2A, 0x2B, 0x0E]

/-! ### `parser.rs` -/

/-- `timestamp_to_bytes`: the timestamp is `u64`; each `as u8` cast is `% 256`. -/
def timestamp_to_bytes (timestamp : Nat) : Bytes :=
  [ ((timestamp &&& 0x7F) ||| 0x80) % 256,
    (((timestamp >>> 7) &&& 0x7F) ||| 0x80) % 256,
    (((timestamp >>> 14) &&& 0x7F) ||| 0x80) % 256,
    (((timestamp >>> 21) &&& 0x7F) ||| 0x80) % 256,
    (timestamp >>> 28) % 256 ]

/-- `timestamp_from_bytes`: the input is a 5-byte array, accessed positionally. -/
def timestamp_from_bytes (bytes : Bytes) : Nat :=
  ((((0 ||| (bytes.getD 4 0 <<< 28))
      ||| ((bytes.getD 3 0 &&& 0x7F) <<< 21))
      ||| ((bytes.getD 2 0 &&& 0x7F) <<< 14))
      ||| ((bytes.getD 1 0 &&& 0x7F) <<< 7))
      ||| (bytes.getD 0 0 &&& 0x7F)

/-- `kelvin_to_bytes`: the value is `u16`; the `as u8` casts are `% 256`. -/
def kelvin_to_bytes (color_temperature : Nat) : Bytes :=
  [ ((color_temperature &&& 0x3F) * 2 + 0x80) % 256,
    (color_temperature >>> 6) % 256 ]

/-- `kelvin_from_bytes`: `bytes[0] - 0x80` is wrapping `u8` subtraction, embedded
as `(b0 + 128) % 256` (valid for byte values `< 256`). -/
def kelvin_from_bytes (bytes : Bytes) : Nat :=
  (bytes.getD 1 0 <<< 6) ||| (((bytes.getD 0 0 + 0x80) % 256) / 2)

/-- `parse_last_modified_timestamp_block` from `parser.rs`. -/
def parse_last_modified_timestamp_block (data : Bytes) (start_from : Nat) :
    PResult (Nat × Nat) := do
  let pos := start_from
  let s ← slice? data pos (pos + TIMESTAMP_HEADER_BYTES.length)
  if s ≠ TIMESTAMP_HEADER_BYTES then
    Except.error (.err .TimestampBlock)
  else
  let pos := pos + TIMESTAMP_HEADER_BYTES.length
  let s ← slice? data pos (pos + TIMESTAMP_PREFIX_BYTES.length)
  if s ≠ TIMESTAMP_PREFIX_BYTES then
    Except.error (.err .TimestampBlock)
  else
  let pos := pos + TIMESTAMP_PREFIX_BYTES.length
  let raw ← slice? data pos (pos + TIMESTAMP_SIZE)
  let timestamp_slice ← try_into_array raw TIMESTAMP_SIZE
  let pos := pos + TIMESTAMP_SIZE
  let timestamp := timestamp_from_bytes timestamp_slice
  let s ← slice? data pos (pos + TIMESTAMP_SUFFIX_BYTES.length)
  if s ≠ TIMESTAMP_SUFFIX_BYTES then
    Except.error (.err .TimestampBlock)
  else
  pure (timestamp, pos + TIMESTAMP_SUFFIX_BYTES.length)

/-- `chrono::NaiveTime`, specialised to whole seconds (the only part of the
type this program touches: `hour()`, `minute()` and second-level equality). -/
structure NaiveTime where
  hour : Nat
  minute : Nat
  second : Nat
deriving DecidableEq

/-- `NaiveTime::from_hms_opt` with the validity checks chrono performs. -/
def NaiveTime.from_hms_opt (h m s : Nat) : Option NaiveTime :=
  if h < 24 ∧ m < 60 ∧ s < 60 then some ⟨h, m, s⟩ else none

/-- `time_to_naive_time` from `parser.rs`. -/
def time_to_naive_time (hours minutes : Nat) : PResult NaiveTime :=
  match NaiveTime.from_hms_opt hours minutes 0 with
  | some t => .ok t
  | none => .error (.err .InvalidTimeValue)

/-! ### Bit-arithmetic bridge lemmas -/

theorem land_127_eq (x : Nat) : x &&& 127 = x % 128 := by
  have h := Nat.and_pow_two_sub_one_eq_mod x 7
  norm_num at h
  exact h

theorem land_63_eq (x : Nat) : x &&& 63 = x % 64 := by
  have h := Nat.and_pow_two_sub_one_eq_mod x 6
  norm_num at h
  exact h

theorem lor_128_eq (x : Nat) (h : x < 128) : x ||| 128 = x + 128 := by
  have hx : (2 : Nat) ^ 7 * 1 + x = 2 ^ 7 * 1 ||| x := Nat.mul_add_lt_is_or (by norm_num [h]) 1
  norm_num at hx
  rw [Nat.lor_comm, ← hx, Nat.add_comm]

theorem lor_mul_pow (i a b : Nat) (h : b < 2 ^ i) : (2 ^ i * a) ||| b = 2 ^ i * a + b :=
  (Nat.mul_add_lt_is_or h a).symm

theorem timestamp_to_bytes_eq (t : Nat) :
    timestamp_to_bytes t =
      [ t % 128 + 128,
        t / 2 ^ 7 % 128 + 128,
        t / 2 ^ 14 % 128 + 128,
        t / 2 ^ 21 % 128 + 128,
        t / 2 ^ 28 % 256 ] := by
  have key : ∀ x : Nat, ((x &&& 0x7F) ||| 0x80) % 256 = x % 128 + 128 := by
    intro x
    have hlt : x % 128 < 128 := Nat.mod_lt _ (by norm_num)
    rw [show (0x7F : Nat) = 127 from rfl, show (0x80 : Nat) = 128 from rfl,
      land_127_eq, lor_128_eq _ hlt, Nat.mod_eq_of_lt (by omega)]
  simp only [timestamp_to_bytes, Nat.shiftRight_eq_div_pow, key]

theorem timestamp_from_bytes_eq (b0 b1 b2 b3 b4 : Nat) :
    timestamp_from_bytes [b0, b1, b2, b3, b4] =
      2 ^ 28 * b4 + 2 ^ 21 * (b3 % 128) + 2 ^ 14 * (b2 % 128) + 2 ^ 7 * (b1 % 128)
        + b0 % 128 := by
  have g0 : List.getD [b0, b1, b2, b3, b4] 0 0 = b0 := rfl
  have g1 : List.getD [b0, b1, b2, b3, b4] 1 0 = b1 := rfl
  have g2 : List.getD [b0, b1, b2, b3, b4] 2 0 = b2 := rfl
  have g3 : List.getD [b0, b1, b2, b3, b4] 3 0 = b3 := rfl
  have g4 : List.getD [b0, b1, b2, b3, b4] 4 0 = b4 := rfl
  have h4 : (0 : Nat) ||| (b4 <<< 28) = 2 ^ 28 * b4 := by
    rw [Nat.zero_or, Nat.shiftLeft_eq]; ring
  have h3 : (2 ^ 28 * b4) ||| ((b3 &&& 127) <<< 21)
      = 2 ^ 28 * b4 + 2 ^ 21 * (b3 % 128) := by
    rw [land_127_eq, Nat.shiftLeft_eq,
      lor_mul_pow 28 b4 (b3 % 128 * 2 ^ 21) (by omega)]
    ring
  have h2 : (2 ^ 28 * b4 + 2 ^ 21 * (b3 % 128)) ||| ((b2 &&& 127) <<< 14)
      = 2 ^ 28 * b4 + 2 ^ 21 * (b3 % 128) + 2 ^ 14 * (b2 % 128) := by
    rw [land_127_eq, Nat.shiftLeft_eq,
      show 2 ^ 28 * b4 + 2 ^ 21 * (b3 % 128) = 2 ^ 21 * (2 ^ 7 * b4 + b3 % 128) by ring,
      lor_mul_pow 21 _ (b2 % 128 * 2 ^ 14) (by omega)]
    ring
  have h1 : (2 ^ 28 * b4 + 2 ^ 21 * (b3 % 128) + 2 ^ 14 * (b2 % 128))
        ||| ((b1 &&& 127) <<< 7)
      = 2 ^ 28 * b4 + 2 ^ 21 * (b3 % 128) + 2 ^ 14 * (b2 % 128) + 2 ^ 7 * (b1 % 128) := by
    rw [land_127_eq, Nat.shiftLeft_eq,
      show 2 ^ 28 * b4 + 2 ^ 21 * (b3 % 128) + 2 ^ 14 * (b2 % 128)
        = 2 ^ 14 * (2 ^ 14 * b4 + 2 ^ 7 * (b3 % 128) + b2 % 128) by ring,
      lor_mul_pow 14 _ (b1 % 128 * 2 ^ 7) (by omega)]
    ring
  have h0 : (2 ^ 28 * b4 + 2 ^ 21 * (b3 % 128) + 2 ^ 14 * (b2 % 128) + 2 ^ 7 * (b1 % 128))
        ||| (b0 &&& 127)
      = 2 ^ 28 * b4 + 2 ^ 21 * (b3 % 128) + 2 ^ 14 * (b2 % 128) + 2 ^ 7 * (b1 % 128)
        + b0 % 128 := by
    rw [land_127_eq,
      show 2 ^ 28 * b4 + 2 ^ 21 * (b3 % 128) + 2 ^ 14 * (b2 % 128) + 2 ^ 7 * (b1 % 128)
        = 2 ^ 7 * (2 ^ 21 * b4 + 2 ^ 14 * (b3 % 128) + 2 ^ 7 * (b2 % 128) + b1 % 128) by ring,
      lor_mul_pow 7 _ (b0 % 128) (by omega)]
  show ((((0 ||| (List.getD [b0, b1, b2, b3, b4] 4 0 <<< 28))
      ||| ((List.getD [b0, b1, b2, b3, b4] 3 0 &&& 0x7F) <<< 21))
      ||| ((List.getD [b0, b1, b2, b3, b4] 2 0 &&& 0x7F) <<< 14))
      ||| ((List.getD [b0, b1, b2, b3, b4] 1 0 &&& 0x7F) <<< 7))
      ||| (List.getD [b0, b1, b2, b3, b4] 0 0 &&& 0x7F) = _
  rw [g0, g1, g2, g3, g4, h4, h3, h2, h1, h0]

/-- Round trip of the timestamp codec; it holds for every timestamp below
`2 ^ 36` (the fifth byte keeps 8 bits). -/
theorem timestamp_roundtrip (t : Nat) (h : t < 2 ^ 36) :
    timestamp_from_bytes (timestamp_to_bytes t) = t := by
  rw [timestamp_to_bytes_eq, timestamp_from_bytes_eq]
  have e : ∀ x : Nat, (x % 128 + 128) % 128 = x % 128 := by omega
  simp only [e]
  omega

/-! ### Claims C5 and C4: the two leaf codecs -/

/-- Claim C5: for every timestamp `t ≤ 2^32 - 1`, `timestamp_to_bytes t` is
exactly 5 bytes; bytes 0–3 hold timestamp bits 0–6, 7–13, 14–20, 21–27 with
their top bit set, byte 4 holds bits 28–31 with its top bit unset, and
`timestamp_from_bytes` inverts the encoding, so decoding the encoding gives
back `t`. -/
theorem claim_c5_timestamp_codec (t : Nat) (h : t < 2 ^ 32) :
    (timestamp_to_bytes t).length = 5
    ∧ (∀ i < 4, (timestamp_to_bytes t).getD i 0 % 2 ^ 7 = t / 2 ^ (7 * i) % 2 ^ 7
        ∧ (timestamp_to_bytes t).getD i 0 / 2 ^ 7 = 1)
    ∧ (timestamp_to_bytes t).getD 4 0 = t / 2 ^ 28
    ∧ (timestamp_to_bytes t).getD 4 0 / 2 ^ 7 = 0
    ∧ timestamp_from_bytes (timestamp_to_bytes t) = t := by
  rw [timestamp_to_bytes_eq]
  refine ⟨rfl, ?_, ?_, ?_, ?_⟩
  · intro i hi
    interval_cases i <;> constructor <;> simp [List.getD] <;> omega
  · simp [List.getD]; omega
  · simp [List.getD]; omega
  · rw [timestamp_from_bytes_eq]; omega

/-- Witness for C5 at the timestamp of the repository's own test vector. -/
theorem claim_c5_witness :
    1742540908 < 2 ^ 32
    ∧ ((timestamp_to_bytes 1742540908).length = 5
        ∧ (∀ i < 4, (timestamp_to_bytes 1742540908).getD i 0 % 2 ^ 7
              = 1742540908 / 2 ^ (7 * i) % 2 ^ 7
            ∧ (timestamp_to_bytes 1742540908).getD i 0 / 2 ^ 7 = 1)
        ∧ (timestamp_to_bytes 1742540908).getD 4 0 = 1742540908 / 2 ^ 28
        ∧ (timestamp_to_bytes 1742540908).getD 4 0 / 2 ^ 7 = 0
        ∧ timestamp_from_bytes (timestamp_to_bytes 1742540908) = 1742540908) :=
  ⟨by norm_num, claim_c5_timestamp_codec 1742540908 (by norm_num)⟩

/-- Claim C4 counterexample: the byte pair `[0x81, 0x00]` decodes without error
but does not re-encode to itself (`0x81` is odd, and the halving in
`kelvin_from_bytes` discards its lowest bit), so the claimed lossless
round-trip on every 2-byte input is false. -/
theorem claim_c4_counterexample :
    kelvin_to_bytes (kelvin_from_bytes [0x81, 0x00]) ≠ [0x81, 0x00] := by
  decide

/-- Claim C4 (amended): `kelvin_from_bytes` is total — it accepts any 2-byte
input with no decode-time domain validation — and re-encoding the decoded
value reproduces the original bytes exactly when byte 0 is an even byte with
its top bit set (the shape every `kelvin_to_bytes` output has). -/
theorem claim_c4_amended (b0 b1 : Nat) (h0 : 128 ≤ b0) (h1 : b0 < 256)
    (h2 : b0 % 2 = 0) (h3 : b1 < 256) :
    kelvin_to_bytes (kelvin_from_bytes [b0, b1]) = [b0, b1] := by
  have gd0 : List.getD [b0, b1] 0 0 = b0 := rfl
  have gd1 : List.getD [b0, b1] 1 0 = b1 := rfl
  unfold kelvin_from_bytes kelvin_to_bytes
  rw [gd0, gd1, Nat.shiftLeft_eq]
  have hklt : (b0 + 0x80) % 256 / 2 < 64 := by omega
  rw [show b1 * 2 ^ 6 = 2 ^ 6 * b1 by ring, lor_mul_pow 6 b1 _ hklt,
    show (0x3F : Nat) = 63 from rfl, land_63_eq, Nat.shiftRight_eq_div_pow]
  simp only [List.cons.injEq, and_true]
  constructor <;> omega

/-- Witness for C4 (amended) at the color-temperature bytes of the
repository's own test vector (`0xCC 0x2B`, the encoding of 2790 K). -/
theorem claim_c4_witness :
    (128 ≤ 204 ∧ 204 < 256 ∧ 204 % 2 = 0 ∧ 43 < 256)
    ∧ kelvin_to_bytes (kelvin_from_bytes [204, 43]) = [204, 43] :=
  ⟨by norm_num, claim_c4_amended 204 43 (by norm_num) (by norm_num) (by norm_num) (by norm_num)⟩

/-! ### `nightlight_settings.rs`: constants and data model -/

def SCHEDULE_ENABLED_BYTES : Bytes := [0x02, 0x01]

def SCHEDULE_MODE_SET_HOURS_ENABLED_BYTES : Bytes := [0xC2, 0x0A, 0x00]

def SCHEDULE_START_TIME_PREFIX_BYTES : Bytes := [0xCA, 0x14]

def SCHEDULE_END_TIME_PREFIX_BYTES : Bytes := [0xCA, 0x1E]

def SUNSET_TIME_PREFIX_BYTES : Bytes := [0xCA, 0x32]

def SUNRISE_TIME_PREFIX_BYTES : Bytes := [0xCA, 0x3C]

def TIME_BLOCK_HOUR_IDENTIFIER_PREFIX_BYTE : Byte := 0x0E

def TIME_BLOCK_MINUTE_IDENTIFIER_PREFIX_BYTE : Byte := 0x2E

def TIME_BLOCK_TERMINAL_BYTE : Byte := 0x00

def COLOR_TEMPERATURE_PREFIX_BYTES : Bytes := [0xCF, 0x28]

def COLOR_TEMPERATURE_SIZE : Nat := 2

/-- `ScheduleMode` from `nightlight_settings.rs`. -/
inductive ScheduleMode where
  | Off
  | SunsetToSunrise
  | SetHours
deriving DecidableEq

/-- `TimeBlockType` from `nightlight_settings.rs`. -/
inductive TimeBlockType where
  | ScheduleStart
  | ScheduleEnd
  | Sunset
  | Sunrise
deriving DecidableEq

/-- `TimeBlockType::get_prefix_identifier`. -/
def TimeBlockType.get_prefix_identifier : TimeBlockType → Bytes
  | .ScheduleStart => SCHEDULE_START_TIME_PREFIX_BYTES
  | .ScheduleEnd => SCHEDULE_END_TIME_PREFIX_BYTES
  | .Sunset => SUNSET_TIME_PREFIX_BYTES
  | .Sunrise => SUNRISE_TIME_PREFIX_BYTES

/-- `NightlightError` from `nightlight_settings.rs`. -/
inductive NightlightError where
  | InvalidColorTemperature (kelvin : Nat)
deriving DecidableEq

/-- The `NightlightSettings` struct. -/
structure NightlightSettings where
  timestamp : Nat
  schedule_mode : ScheduleMode
  color_temperature : Nat
  start_time : NaiveTime
  end_time : NaiveTime
  sunset_time : NaiveTime
  sunrise_time : NaiveTime
deriving DecidableEq

/-- `NightlightSettings::time_hours_minutes_from_bytes`. -/
def NightlightSettings.time_hours_minutes_from_bytes (data : Bytes) (pos : Nat) :
    PResult (Nat × Nat × Nat) := do
  let b ← readByte data pos
  let (start_hour, pos) ←
    if b = TIME_BLOCK_HOUR_IDENTIFIER_PREFIX_BYTE then do
      let hour ← readByte data (pos + 1)
      pure (hour, pos + 2)
    else
      pure ((0 : Nat), pos)
  if start_hour ≥ 24 then
    Except.error (.err (.InvalidBlock "TimeBlockHourValue"))
  else
  let b ← readByte data pos
  let (start_minute, pos) ←
    if b = TIME_BLOCK_MINUTE_IDENTIFIER_PREFIX_BYTE then do
      let minute ← readByte data (pos + 1)
      pure (minute, pos + 2)
    else
      pure ((0 : Nat), pos)
  if start_minute ≥ 60 then
    Except.error (.err (.InvalidBlock "TimeBlockMinuteValue"))
  else
  let b ← readByte data pos
  if b ≠ TIME_BLOCK_TERMINAL_BYTE then
    Except.error (.err (.InvalidBlock "TimeBlockTerminal"))
  else
  pure (start_hour, start_minute, pos + 1)

/-- `NightlightSettings::naive_time_to_bytes`; `time.hour() as u8` and
`time.minute() as u8` are the `% 256` casts. -/
def NightlightSettings.naive_time_to_bytes (time : NaiveTime) (time_type : TimeBlockType) :
    Bytes :=
  let hour := time.hour % 256
  let minute := time.minute % 256
  time_type.get_prefix_identifier
    ++ (if hour > 0 then [TIME_BLOCK_HOUR_IDENTIFIER_PREFIX_BYTE, hour] else [])
    ++ (if minute > 0 then [TIME_BLOCK_MINUTE_IDENTIFIER_PREFIX_BYTE, minute] else [])
    ++ [TIME_BLOCK_TERMINAL_BYTE]

/-- `NightlightSettings::parse_struct_header_block`. -/
def NightlightSettings.parse_struct_header_block (data : Bytes) (pos : Nat) :
    PResult Nat := do
  let s ← slice? data pos (pos + STRUCT_HEADER_BYTES.length)
  if s ≠ STRUCT_HEADER_BYTES then
    Except.error (.err .StructStart)
  else
  pure (pos + STRUCT_HEADER_BYTES.length)

/-- `NightlightSettings::parse_last_modified_timestamp_block`; its Rust body is
an identical copy of the free function in `parser.rs`, so it is embedded as an
identical copy too. -/
def NightlightSettings.parse_last_modified_timestamp_block (data : Bytes) (start_from : Nat) :
    PResult (Nat × Nat) := do
  let pos := start_from
  let s ← slice? data pos (pos + TIMESTAMP_HEADER_BYTES.length)
  if s ≠ TIMESTAMP_HEADER_BYTES then
    Except.error (.err .TimestampBlock)
  else
  let pos := pos + TIMESTAMP_HEADER_BYTES.length
  let s ← slice? data pos (pos + TIMESTAMP_PREFIX_BYTES.length)
  if s ≠ TIMESTAMP_PREFIX_BYTES then
    Except.error (.err .TimestampBlock)
  else
  let pos := pos + TIMESTAMP_PREFIX_BYTES.length
  let raw ← slice? data pos (pos + TIMESTAMP_SIZE)
  let timestamp_slice ← try_into_array raw TIMESTAMP_SIZE
  let pos := pos + TIMESTAMP_SIZE
  let timestamp := timestamp_from_bytes timestamp_slice
  let s ← slice? data pos (pos + TIMESTAMP_SUFFIX_BYTES.length)
  if s ≠ TIMESTAMP_SUFFIX_BYTES then
    Except.error (.err .TimestampBlock)
  else
  pure (timestamp, pos + TIMESTAMP_SUFFIX_BYTES.length)

/-- `NightlightSettings::parse_is_schedule_enabled_block` (infallible in Rust
up to slice panics, which the `PResult` carries). -/
def NightlightSettings.parse_is_schedule_enabled_block (data : Bytes) (pos : Nat) :
    PResult (Bool × Nat) := do
  let s ← slice? data pos (pos + SCHEDULE_ENABLED_BYTES.length)
  if s ≠ SCHEDULE_ENABLED_BYTES then
    pure (false, pos)
  else
    pure (true, pos + SCHEDULE_ENABLED_BYTES.length)

/-- `NightlightSettings::parse_is_schedule_mode_set_hours_enabled_block`. -/
def NightlightSettings.parse_is_schedule_mode_set_hours_enabled_block
    (data : Bytes) (pos : Nat) : PResult (Bool × Nat) := do
  let s ← slice? data pos (pos + SCHEDULE_MODE_SET_HOURS_ENABLED_BYTES.length)
  if s ≠ SCHEDULE_MODE_SET_HOURS_ENABLED_BYTES then
    pure (false, pos)
  else
    pure (true, pos + SCHEDULE_MODE_SET_HOURS_ENABLED_BYTES.length)

/-- `NightlightSettings::parse_time_type_block`. -/
def NightlightSettings.parse_time_type_block (data : Bytes) (pos : Nat)
    (time_type : TimeBlockType) : PResult (Nat × Nat × Nat) := do
  let prefix_bytes := time_type.get_prefix_identifier
  let s ← slice? data pos (pos + prefix_bytes.length)
  if s ≠ prefix_bytes then
    match time_type with
    | .ScheduleStart => Except.error (.err (.InvalidBlock "ScheduleStart"))
    | .ScheduleEnd => Except.error (.err (.InvalidBlock "ScheduleEnd"))
    | .Sunset => Except.error (.err (.InvalidBlock "Sunset"))
    | .Sunrise => Except.error (.err (.InvalidBlock "Sunrise"))
  else
  NightlightSettings.time_hours_minutes_from_bytes data (pos + prefix_bytes.length)

/-- `NightlightSettings::parse_color_temperature_block`. -/
def NightlightSettings.parse_color_temperature_block (data : Bytes) (pos : Nat) :
    PResult (Nat × Nat) := do
  let s ← slice? data pos (pos + COLOR_TEMPERATURE_PREFIX_BYTES.length)
  if s ≠ COLOR_TEMPERATURE_PREFIX_BYTES then
    Except.error (.err (.InvalidBlock "ColorTemperature"))
  else
  let pos := pos + COLOR_TEMPERATURE_PREFIX_BYTES.length
  let raw ← slice? data pos (pos + COLOR_TEMPERATURE_SIZE)
  let color_temperature_slice ← try_into_array raw COLOR_TEMPERATURE_SIZE
  let color_temperature := kelvin_from_bytes color_temperature_slice
  pure (color_temperature, pos + COLOR_TEMPERATURE_SIZE)

/-- `NightlightSettings::parse_struct_footer_block`. -/
def NightlightSettings.parse_struct_footer_block (data : Bytes) (pos : Nat) :
    PResult Nat := do
  let s ← slice? data pos (pos + STRUCT_FOOTER_BYTES.length)
  if s ≠ STRUCT_FOOTER_BYTES then
    Except.error (.err .StructEnd)
  else
  pure (pos + STRUCT_FOOTER_BYTES.length)

/-- `NightlightSettings::deserialize_from_bytes`. -/
def NightlightSettings.deserialize_from_bytes (data : Bytes) :
    PResult NightlightSettings := do
  let pos ← NightlightSettings.parse_struct_header_block data 0
  let (timestamp, pos) ← NightlightSettings.parse_last_modified_timestamp_block data pos
  let remaining_struct_size ← readByte data pos
  if data.length ≠ remaining_struct_size + pos + STRUCT_FOOTER_BYTES.length then
    Except.error (.err .StructEnd)
  else
  let pos ← NightlightSettings.parse_struct_header_block data (pos + 1)
  let (is_schedule_enabled, pos) ←
    NightlightSettings.parse_is_schedule_enabled_block data pos
  let (is_schedule_mode_set_hours_enabled, pos) ←
    NightlightSettings.parse_is_schedule_mode_set_hours_enabled_block data pos
  let (start_hour, start_minute, pos) ←
    NightlightSettings.parse_time_type_block data pos .ScheduleStart
  let (end_hour, end_minute, pos) ←
    NightlightSettings.parse_time_type_block data pos .ScheduleEnd
  let (color_temperature, pos) ←
    NightlightSettings.parse_color_temperature_block data pos
  let (sunset_hour, sunset_minute, pos) ←
    NightlightSettings.parse_time_type_block data pos .Sunset
  let (sunrise_hour, sunrise_minute, pos) ←
    NightlightSettings.parse_time_type_block data pos .Sunrise
  let pos ← NightlightSettings.parse_struct_footer_block data pos
  if pos ≠ data.length then
    Except.error (.err .StructEnd)
  else
  let schedule_mode :=
    if is_schedule_enabled then
      if is_schedule_mode_set_hours_enabled then ScheduleMode.SetHours
      else ScheduleMode.SunsetToSunrise
    else ScheduleMode.Off
  let start_time ← time_to_naive_time start_hour start_minute
  let end_time ← time_to_naive_time end_hour end_minute
  let sunset_time ← time_to_naive_time sunset_hour sunset_minute
  let sunrise_time ← time_to_naive_time sunrise_hour sunrise_minute
  pure { timestamp, schedule_mode, color_temperature,
         start_time, end_time, sunset_time, sunrise_time }

/-- The `remaining_struct_bytes` buffer built by
`NightlightSettings::serialize_to_bytes` (the inner body between the
remaining-length byte and the footer). -/
def NightlightSettings.remaining_struct_bytes (s : NightlightSettings) : Bytes :=
  STRUCT_HEADER_BYTES
    ++ (match s.schedule_mode with
        | .Off => []
        | .SunsetToSunrise => SCHEDULE_ENABLED_BYTES
        | .SetHours => SCHEDULE_ENABLED_BYTES ++ SCHEDULE_MODE_SET_HOURS_ENABLED_BYTES)
    ++ NightlightSettings.naive_time_to_bytes s.start_time .ScheduleStart
    ++ NightlightSettings.naive_time_to_bytes s.end_time .ScheduleEnd
    ++ COLOR_TEMPERATURE_PREFIX_BYTES
    ++ kelvin_to_bytes s.color_temperature
    ++ NightlightSettings.naive_time_to_bytes s.sunset_time .Sunset
    ++ NightlightSettings.naive_time_to_bytes s.sunrise_time .Sunrise

/-- `NightlightSettings::serialize_to_bytes`.  The `len() as u8 + 1` is
wrapping `u8` arithmetic: `(len % 256 + 1) % 256`. -/
def NightlightSettings.serialize_to_bytes (s : NightlightSettings) : Bytes :=
  let remaining_struct_size := (s.remaining_struct_bytes.length % 256 + 1) % 256
  STRUCT_HEADER_BYTES
    ++ TIMESTAMP_HEADER_BYTES
    ++ TIMESTAMP_PREFIX_BYTES
    ++ timestamp_to_bytes s.timestamp
    ++ TIMESTAMP_SUFFIX_BYTES
    ++ [remaining_struct_size]
    ++ s.remaining_struct_bytes
    ++ STRUCT_FOOTER_BYTES

/-- `NightlightSettings::set_mode`; the wall-clock instant that
`update_timestamp` would read is passed in as `now`. -/
def NightlightSettings.set_mode (s : NightlightSettings) (now : Nat)
    (mode : ScheduleMode) : NightlightSettings :=
  if s.schedule_mode = mode then s
  else { s with schedule_mode := mode, timestamp := now }

/-- `NightlightSettings::set_color_temperature`; returns the Rust `Result`
paired with the (possibly updated) record, with the wall clock as `now`. -/
def NightlightSettings.set_color_temperature (s : NightlightSettings) (now : Nat)
    (color_temperature : Nat) : Except NightlightError Unit × NightlightSettings :=
  if s.color_temperature = color_temperature then
    (.ok (), s)
  else if ¬ (1200 ≤ color_temperature ∧ color_temperature ≤ 6500) then
    (.error (.InvalidColorTemperature color_temperature), s)
  else
    (.ok (), { s with color_temperature := color_temperature, timestamp := now })

/-! ### `nightlight_state.rs` -/

def NIGHTLIGHT_STATE_ENABLED_BYTES : Bytes := [0x10, 0x00]

/-- The `NightlightState` struct. -/
structure NightlightState where
  timestamp : Nat
  is_enabled : Bool
  remaining_data : Bytes
deriving DecidableEq

/-- `NightlightState::parse_struct_header_block` (an identical copy of the
Settings one in Rust). -/
def NightlightState.parse_struct_header_block (data : Bytes) (pos : Nat) :
    PResult Nat := do
  let s ← slice? data pos (pos + STRUCT_HEADER_BYTES.length)
  if s ≠ STRUCT_HEADER_BYTES then
    Except.error (.err .StructStart)
  else
  pure (pos + STRUCT_HEADER_BYTES.length)

/-- `NightlightState::parse_struct_footer_block`. -/
def NightlightState.parse_struct_footer_block (data : Bytes) (pos : Nat) :
    PResult Nat := do
  let s ← slice? data pos (pos + STRUCT_FOOTER_BYTES.length)
  if s ≠ STRUCT_FOOTER_BYTES then
    Except.error (.err .StructEnd)
  else
  pure (pos + STRUCT_FOOTER_BYTES.length)

/-- `NightlightState::parse_is_enabled_block`. -/
def NightlightState.parse_is_enabled_block (data : Bytes) (pos : Nat) :
    PResult (Bool × Nat) := do
  let s ← slice? data pos (pos + NIGHTLIGHT_STATE_ENABLED_BYTES.length)
  if s = NIGHTLIGHT_STATE_ENABLED_BYTES then
    pure (true, pos + NIGHTLIGHT_STATE_ENABLED_BYTES.length)
  else
    pure (false, pos)

/-- `NightlightState::parse_remaining_data_block`.  `data.len() -
STRUCT_FOOTER_BYTES.len()` is `usize` arithmetic whose underflow (buffer
shorter than the footer) makes the slice panic, modelled by the guard. -/
def NightlightState.parse_remaining_data_block (data : Bytes) (pos : Nat) :
    PResult (Bytes × Nat) := do
  if data.length < STRUCT_FOOTER_BYTES.length then
    Except.error .oob
  else
  let remaining_data_bytes ← slice? data pos (data.length - STRUCT_FOOTER_BYTES.length)
  pure (remaining_data_bytes, pos + remaining_data_bytes.length)

/-- `NightlightState::deserialize_from_bytes`. -/
def NightlightState.deserialize_from_bytes (data : Bytes) :
    PResult NightlightState := do
  let pos ← NightlightState.parse_struct_header_block data 0
  let (timestamp, pos) ← parse_last_modified_timestamp_block data pos
  let remaining_struct_size ← readByte data pos
  if data.length ≠ remaining_struct_size + pos + STRUCT_FOOTER_BYTES.length then
    Except.error (.err .StructEnd)
  else
  let pos ← NightlightState.parse_struct_header_block data (pos + 1)
  let (is_enabled, pos) ← NightlightState.parse_is_enabled_block data pos
  let (remaining_data, pos) ← NightlightState.parse_remaining_data_block data pos
  let pos ← NightlightState.parse_struct_footer_block data pos
  if pos ≠ data.length then
    Except.error (.err .StructEnd)
  else
  pure { timestamp, is_enabled, remaining_data }

/-- The `remaining_struct_bytes` buffer built by
`NightlightState::serialize_to_bytes` (the inner body between the
remaining-length byte and the footer). -/
def NightlightState.remaining_struct_bytes (s : NightlightState) : Bytes :=
  STRUCT_HEADER_BYTES
    ++ (if s.is_enabled then NIGHTLIGHT_STATE_ENABLED_BYTES else [])
    ++ s.remaining_data

/-- `NightlightState::serialize_to_bytes`; `len() as u8 + 1` is wrapping `u8`
arithmetic, `(len % 256 + 1) % 256`. -/
def NightlightState.serialize_to_bytes (s : NightlightState) : Bytes :=
  let remaining_struct_size := (s.remaining_struct_bytes.length % 256 + 1) % 256
  STRUCT_HEADER_BYTES
    ++ TIMESTAMP_HEADER_BYTES
    ++ TIMESTAMP_PREFIX_BYTES
    ++ timestamp_to_bytes s.timestamp
    ++ TIMESTAMP_SUFFIX_BYTES
    ++ [remaining_struct_size]
    ++ s.remaining_struct_bytes
    ++ STRUCT_FOOTER_BYTES

/-- `NightlightState::enable`; the wall-clock instant `update_timestamp` would
read is passed in as `now`.  Returns the Rust `bool` paired with the record. -/
def NightlightState.enable (s : NightlightState) (now : Nat) : Bool × NightlightState :=
  if !s.is_enabled then
    (true, { s with is_enabled := true, timestamp := now })
  else
    (false, s)

/-- `NightlightState::disable`. -/
def NightlightState.disable (s : NightlightState) (now : Nat) : Bool × NightlightState :=
  if s.is_enabled then
    (true, { s with is_enabled := false, timestamp := now })
  else
    (false, s)

/-! ### Claim C2: the concrete Settings test vector -/

/-- Claim C2: the Settings record with timestamp 1742540908, mode SetHours,
color temperature 2790, start 01:15, end 00:00, sunset 19:23, sunrise 07:12
serializes to exactly the repository's 60-byte reference sequence, and
deserializing that sequence returns exactly that record. -/
theorem claim_c2_concrete_settings_vector :
    NightlightSettings.serialize_to_bytes
        { timestamp := 1742540908, schedule_mode := .SetHours, color_temperature := 2790,
          start_time := ⟨1, 15, 0⟩, end_time := ⟨0, 0, 0⟩,
          sunset_time := ⟨19, 23, 0⟩, sunrise_time := ⟨7, 12, 0⟩ }
      = [0x43, 0x42, 0x01, 0x00, 0x0A, 0x02, 0x01, 0x00, 0x2A, 0x06, 0xEC, 0xA0, 0xF4, 0xBE,
         0x06, 0x2A, 0x2B, 0x0E, 0x26, 0x43, 0x42, 0x01, 0x00, 0x02, 0x01, 0xC2, 0x0A, 0x00,
         0xCA, 0x14, 0x0E, 0x01, 0x2E, 0x0F, 0x00, 0xCA, 0x1E, 0x00, 0xCF, 0x28, 0xCC, 0x2B,
         0xCA, 0x32, 0x0E, 0x13, 0x2E, 0x17, 0x00, 0xCA, 0x3C, 0x0E, 0x07, 0x2E, 0x0C, 0x00,
         0x00, 0x00, 0x00, 0x00]
    ∧ NightlightSettings.deserialize_from_bytes
        [0x43, 0x42, 0x01, 0x00, 0x0A, 0x02, 0x01, 0x00, 0x2A, 0x06, 0xEC, 0xA0, 0xF4, 0xBE,
         0x06, 0x2A, 0x2B, 0x0E, 0x26, 0x43, 0x42, 0x01, 0x00, 0x02, 0x01, 0xC2, 0x0A, 0x00,
         0xCA, 0x14, 0x0E, 0x01, 0x2E, 0x0F, 0x00, 0xCA, 0x1E, 0x00, 0xCF, 0x28, 0xCC, 0x2B,
         0xCA, 0x32, 0x0E, 0x13, 0x2E, 0x17, 0x00, 0xCA, 0x3C, 0x0E, 0x07, 0x2E, 0x0C, 0x00,
         0x00, 0x00, 0x00, 0x00]
      = .ok { timestamp := 1742540908, schedule_mode := .SetHours, color_temperature := 2790,
              start_time := ⟨1, 15, 0⟩, end_time := ⟨0, 0, 0⟩,
              sunset_time := ⟨19, 23, 0⟩, sunrise_time := ⟨7, 12, 0⟩ } := by
  constructor
  · decide
  · decide

/-! ### Parser-step infrastructure -/

theorem ebind_ok {α β : Type} (a : α) (f : α → PResult β) :
    (Except.ok a : PResult α) >>= f = f a := rfl

@[simp] theorem STRUCT_HEADER_BYTES_length : STRUCT_HEADER_BYTES.length = 4 := rfl

@[simp] theorem STRUCT_FOOTER_BYTES_length : STRUCT_FOOTER_BYTES.length = 4 := rfl

@[simp] theorem TIMESTAMP_HEADER_BYTES_length : TIMESTAMP_HEADER_BYTES.length = 4 := rfl

@[simp] theorem TIMESTAMP_PREFIX_BYTES_length : TIMESTAMP_PREFIX_BYTES.length = 2 := rfl

@[simp] theorem TIMESTAMP_SUFFIX_BYTES_length : TIMESTAMP_SUFFIX_BYTES.length = 3 := rfl

@[simp] theorem TIMESTAMP_SIZE_eq : TIMESTAMP_SIZE = 5 := rfl

@[simp] theorem SCHEDULE_ENABLED_BYTES_length : SCHEDULE_ENABLED_BYTES.length = 2 := rfl

@[simp] theorem SET_HOURS_BYTES_length : SCHEDULE_MODE_SET_HOURS_ENABLED_BYTES.length = 3 := rfl

@[simp] theorem COLOR_TEMPERATURE_PREFIX_BYTES_length :
    COLOR_TEMPERATURE_PREFIX_BYTES.length = 2 := rfl

@[simp] theorem COLOR_TEMPERATURE_SIZE_eq : COLOR_TEMPERATURE_SIZE = 2 := rfl

@[simp] theorem NIGHTLIGHT_STATE_ENABLED_BYTES_length :
    NIGHTLIGHT_STATE_ENABLED_BYTES.length = 2 := rfl

@[simp] theorem timestamp_to_bytes_length (t : Nat) : (timestamp_to_bytes t).length = 5 := rfl

theorem slice?_drop (data : Bytes) (pos : Nat) (seg rest : Bytes) (n : Nat)
    (h : data.drop pos = seg ++ rest) (hn : n = seg.length) (hpos : pos ≤ data.length) :
    slice? data pos (pos + n) = .ok seg := by
  subst hn
  have hlen : data.length - pos = seg.length + rest.length := by
    have hl := List.length_drop pos data
    rw [h] at hl
    simp only [List.length_append] at hl
    omega
  unfold slice?
  rw [if_pos (by omega)]
  rw [Nat.add_sub_cancel_left, h, List.take_left]

theorem readByte_drop (data : Bytes) (pos : Nat) (b : Byte) (rest : Bytes)
    (h : data.drop pos = b :: rest) :
    readByte data pos = .ok b := by
  have hpos : pos < data.length := by
    by_contra hc
    push_neg at hc
    rw [List.drop_eq_nil_of_le hc] at h
    exact List.noConfusion h
  have hd := List.drop_eq_getElem_cons hpos
  rw [hd] at h
  have hb : data[pos] = b := by
    injection h
  unfold readByte
  rw [List.getElem?_eq_getElem hpos, hb]

theorem drop_advance (data : Bytes) (pos k : Nat) (seg rest : Bytes)
    (h : data.drop pos = seg ++ rest) (hk : k = seg.length) :
    data.drop (pos + k) = rest := by
  subst hk
  rw [← List.drop_drop, h, List.drop_left]

theorem drop_advance1 (data : Bytes) (pos : Nat) (b : Byte) (rest : Bytes)
    (h : data.drop pos = b :: rest) : data.drop (pos + 1) = rest :=
  drop_advance data pos 1 [b] rest (by simpa using h) rfl

theorem drop_pos_le (data : Bytes) (pos : Nat) (seg rest : Bytes)
    (h : data.drop pos = seg ++ rest) (hseg : seg ≠ []) : pos ≤ data.length := by
  by_contra hc
  push_neg at hc
  rw [List.drop_eq_nil_of_le (Nat.le_of_lt hc)] at h
  cases seg with
  | nil => exact hseg rfl
  | cons x xs => exact List.noConfusion h

/-! ### Block-level decoding lemmas -/

theorem settings_header_block_drop (data : Bytes) (pos : Nat) (rest : Bytes)
    (h : data.drop pos = STRUCT_HEADER_BYTES ++ rest) (hpos : pos ≤ data.length) :
    NightlightSettings.parse_struct_header_block data pos = .ok (pos + 4) := by
  unfold NightlightSettings.parse_struct_header_block
  rw [slice?_drop data pos STRUCT_HEADER_BYTES rest _ h rfl hpos, ebind_ok,
    if_neg (by simp)]
  rfl

theorem state_header_block_drop (data : Bytes) (pos : Nat) (rest : Bytes)
    (h : data.drop pos = STRUCT_HEADER_BYTES ++ rest) (hpos : pos ≤ data.length) :
    NightlightState.parse_struct_header_block data pos = .ok (pos + 4) := by
  unfold NightlightState.parse_struct_header_block
  rw [slice?_drop data pos STRUCT_HEADER_BYTES rest _ h rfl hpos, ebind_ok,
    if_neg (by simp)]
  rfl

theorem settings_footer_block_drop (data : Bytes) (pos : Nat) (rest : Bytes)
    (h : data.drop pos = STRUCT_FOOTER_BYTES ++ rest) (hpos : pos ≤ data.length) :
    NightlightSettings.parse_struct_footer_block data pos = .ok (pos + 4) := by
  unfold NightlightSettings.parse_struct_footer_block
  rw [slice?_drop data pos STRUCT_FOOTER_BYTES rest _ h rfl hpos, ebind_ok,
    if_neg (by simp)]
  rfl

theorem state_footer_block_drop (data : Bytes) (pos : Nat) (rest : Bytes)
    (h : data.drop pos = STRUCT_FOOTER_BYTES ++ rest) (hpos : pos ≤ data.length) :
    NightlightState.parse_struct_footer_block data pos = .ok (pos + 4) := by
  unfold NightlightState.parse_struct_footer_block
  rw [slice?_drop data pos STRUCT_FOOTER_BYTES rest _ h rfl hpos, ebind_ok,
    if_neg (by simp)]
  rfl

theorem ts_block_drop (data : Bytes) (pos : Nat) (t : Nat) (rest : Bytes)
    (h : data.drop pos
      = TIMESTAMP_HEADER_BYTES ++ (TIMESTAMP_PREFIX_BYTES
          ++ (timestamp_to_bytes t ++ (TIMESTAMP_SUFFIX_BYTES ++ rest))))
    (hpos : pos ≤ data.length) :
    parse_last_modified_timestamp_block data pos
      = .ok (timestamp_from_bytes (timestamp_to_bytes t), pos + 14) := by
  have h1 : data.drop (pos + 4)
      = TIMESTAMP_PREFIX_BYTES ++ (timestamp_to_bytes t ++ (TIMESTAMP_SUFFIX_BYTES ++ rest)) :=
    drop_advance data pos 4 _ _ h rfl
  have h2 : data.drop (pos + 4 + 2)
      = timestamp_to_bytes t ++ (TIMESTAMP_SUFFIX_BYTES ++ rest) :=
    drop_advance data (pos + 4) 2 _ _ h1 rfl
  have h3 : data.drop (pos + 4 + 2 + 5) = TIMESTAMP_SUFFIX_BYTES ++ rest :=
    drop_advance data (pos + 4 + 2) 5 _ _ h2 rfl
  have hle : data.length - pos ≥ 14 := by
    have hl := List.length_drop pos data
    rw [h] at hl
    simp only [List.length_append, timestamp_to_bytes_length] at hl
    simp at hl
    omega
  unfold parse_last_modified_timestamp_block
  simp only [TIMESTAMP_HEADER_BYTES_length, TIMESTAMP_PREFIX_BYTES_length,
    TIMESTAMP_SUFFIX_BYTES_length, TIMESTAMP_SIZE_eq]
  rw [slice?_drop data pos TIMESTAMP_HEADER_BYTES _ 4 h rfl hpos, ebind_ok,
    if_neg (by simp)]
  rw [slice?_drop data (pos + 4) TIMESTAMP_PREFIX_BYTES _ 2 h1 rfl (by omega), ebind_ok,
    if_neg (by simp)]
  rw [slice?_drop data (pos + 4 + 2) (timestamp_to_bytes t) _ 5 h2 rfl (by omega), ebind_ok]
  rw [show try_into_array (timestamp_to_bytes t) 5 = .ok (timestamp_to_bytes t) from rfl,
    ebind_ok]
  rw [slice?_drop data (pos + 4 + 2 + 5) TIMESTAMP_SUFFIX_BYTES _ 3 h3 rfl (by omega),
    ebind_ok, if_neg (by simp)]
  have harith : pos + 4 + 2 + 5 + 3 = pos + 14 := by omega
  rw [harith]
  rfl

theorem ebind_pure {α β : Type} (a : α) (f : α → PResult β) :
    (pure a : PResult α) >>= f = f a := rfl


theorem naive_time_to_bytes_eq (t : NaiveTime) (tt : TimeBlockType)
    (hh : t.hour < 24) (hm : t.minute < 60) :
    NightlightSettings.naive_time_to_bytes t tt
      = tt.get_prefix_identifier
        ++ ((if t.hour > 0 then [TIME_BLOCK_HOUR_IDENTIFIER_PREFIX_BYTE, t.hour] else [])
          ++ ((if t.minute > 0 then [TIME_BLOCK_MINUTE_IDENTIFIER_PREFIX_BYTE, t.minute] else [])
            ++ [TIME_BLOCK_TERMINAL_BYTE])) := by
  unfold NightlightSettings.naive_time_to_bytes
  simp only [Nat.mod_eq_of_lt (show t.hour < 256 by omega),
    Nat.mod_eq_of_lt (show t.minute < 256 by omega), List.append_assoc]



theorem thmb_drop (data : Bytes) (pos : Nat) (hr mi : Nat) (rest : Bytes)
    (hh : hr < 24) (hm : mi < 60)
    (h : data.drop pos
      = (if hr > 0 then [TIME_BLOCK_HOUR_IDENTIFIER_PREFIX_BYTE, hr] else [])
        ++ ((if mi > 0 then [TIME_BLOCK_MINUTE_IDENTIFIER_PREFIX_BYTE, mi] else [])
          ++ (TIME_BLOCK_TERMINAL_BYTE :: rest))) :
    NightlightSettings.time_hours_minutes_from_bytes data pos
      = .ok (hr, mi, pos + ((if hr > 0 then 2 else 0) + ((if mi > 0 then 2 else 0) + 1))) := by
  unfold NightlightSettings.time_hours_minutes_from_bytes
  rcases Nat.eq_zero_or_pos hr with h0 | h0 <;> rcases Nat.eq_zero_or_pos mi with m0 | m0
  · -- hr = 0, mi = 0
    subst h0; subst m0
    simp only [if_neg (by omega : ¬ (0:Nat) > 0), List.nil_append] at h ⊢
    simp only [readByte_drop data pos _ _ h, ebind_ok, ebind_pure,
      if_neg (show TIME_BLOCK_TERMINAL_BYTE ≠ TIME_BLOCK_HOUR_IDENTIFIER_PREFIX_BYTE by decide),
      if_neg (show TIME_BLOCK_TERMINAL_BYTE ≠ TIME_BLOCK_MINUTE_IDENTIFIER_PREFIX_BYTE by decide),
      if_neg (show ¬ ((0:Nat) ≥ 24) by omega), if_neg (show ¬ ((0:Nat) ≥ 60) by omega),
      ne_eq, not_true, ite_false, eq_self_iff_true, ite_true, not_false_iff]
    rfl
  · -- hr = 0, mi > 0
    subst h0
    simp only [if_neg (by omega : ¬ (0:Nat) > 0), if_pos m0, List.nil_append,
      List.cons_append] at h ⊢
    have h1 : data.drop (pos + 1) = mi :: (TIME_BLOCK_TERMINAL_BYTE :: rest) :=
      drop_advance1 data pos _ _ h
    have h2 : data.drop (pos + 2) = TIME_BLOCK_TERMINAL_BYTE :: rest :=
      drop_advance1 data (pos + 1) _ _ h1
    simp only [readByte_drop data pos _ _ h, readByte_drop data (pos + 1) _ _ h1,
      readByte_drop data (pos + 2) _ _ h2, ebind_ok, ebind_pure,
      if_neg (show TIME_BLOCK_MINUTE_IDENTIFIER_PREFIX_BYTE ≠ TIME_BLOCK_HOUR_IDENTIFIER_PREFIX_BYTE by decide),
      if_neg (show ¬ ((0:Nat) ≥ 24) by omega), if_neg (show ¬ (mi ≥ 60) by omega),
      if_neg (show TIME_BLOCK_TERMINAL_BYTE ≠ TIME_BLOCK_MINUTE_IDENTIFIER_PREFIX_BYTE by decide),
      ne_eq, not_true, ite_false, eq_self_iff_true, ite_true, not_false_iff]
    rfl
  · -- hr > 0, mi = 0
    subst m0
    simp only [if_pos h0, if_neg (by omega : ¬ (0:Nat) > 0), List.nil_append,
      List.cons_append] at h ⊢
    have h1 : data.drop (pos + 1) = hr :: (TIME_BLOCK_TERMINAL_BYTE :: rest) :=
      drop_advance1 data pos _ _ h
    have h2 : data.drop (pos + 2) = TIME_BLOCK_TERMINAL_BYTE :: rest :=
      drop_advance1 data (pos + 1) _ _ h1
    simp only [readByte_drop data pos _ _ h, readByte_drop data (pos + 1) _ _ h1,
      readByte_drop data (pos + 2) _ _ h2, ebind_ok, ebind_pure,
      if_neg (show ¬ (hr ≥ 24) by omega), if_neg (show ¬ ((0:Nat) ≥ 60) by omega),
      if_neg (show TIME_BLOCK_TERMINAL_BYTE ≠ TIME_BLOCK_MINUTE_IDENTIFIER_PREFIX_BYTE by decide),
      ne_eq, not_true, ite_false, eq_self_iff_true, ite_true, not_false_iff]
    rfl
  · -- hr > 0, mi > 0
    simp only [if_pos h0, if_pos m0, List.nil_append, List.cons_append] at h ⊢
    have h1 : data.drop (pos + 1)
        = hr :: (TIME_BLOCK_MINUTE_IDENTIFIER_PREFIX_BYTE :: (mi :: (TIME_BLOCK_TERMINAL_BYTE :: rest))) :=
      drop_advance1 data pos _ _ h
    have h2 : data.drop (pos + 2)
        = TIME_BLOCK_MINUTE_IDENTIFIER_PREFIX_BYTE :: (mi :: (TIME_BLOCK_TERMINAL_BYTE :: rest)) :=
      drop_advance1 data (pos + 1) _ _ h1
    have h3 : data.drop (pos + 3) = mi :: (TIME_BLOCK_TERMINAL_BYTE :: rest) :=
      drop_advance1 data (pos + 2) _ _ h2
    have h4 : data.drop (pos + 4) = TIME_BLOCK_TERMINAL_BYTE :: rest :=
      drop_advance1 data (pos + 3) _ _ h3
    simp only [readByte_drop data pos _ _ h, readByte_drop data (pos + 1) _ _ h1,
      readByte_drop data (pos + 2) _ _ h2, readByte_drop data (pos + 3) _ _ h3,
      readByte_drop data (pos + 4) _ _ h4, ebind_ok, ebind_pure,
      if_neg (show ¬ (hr ≥ 24) by omega), if_neg (show ¬ (mi ≥ 60) by omega),
      if_neg (show TIME_BLOCK_TERMINAL_BYTE ≠ TIME_BLOCK_MINUTE_IDENTIFIER_PREFIX_BYTE by decide),
      ne_eq, not_true, ite_false, eq_self_iff_true, ite_true, not_false_iff]
    rfl

/-! ### Marker-, color- and payload-block lemmas -/

theorem get_prefix_identifier_length (tt : TimeBlockType) :
    tt.get_prefix_identifier.length = 2 := by
  cases tt <;> rfl

theorem get_prefix_identifier_ne_nil (tt : TimeBlockType) :
    tt.get_prefix_identifier ≠ [] := by
  cases tt <;> decide

theorem naive_time_to_bytes_length (t : NaiveTime) (tt : TimeBlockType)
    (hh : t.hour < 24) (hm : t.minute < 60) :
    (NightlightSettings.naive_time_to_bytes t tt).length
      = 2 + ((if t.hour > 0 then 2 else 0) + ((if t.minute > 0 then 2 else 0) + 1)) := by
  rw [naive_time_to_bytes_eq t tt hh hm]
  simp only [List.length_append, get_prefix_identifier_length]
  split_ifs <;> simp

theorem time_type_block_drop (data : Bytes) (pos : Nat) (t : NaiveTime)
    (tt : TimeBlockType) (rest : Bytes) (hh : t.hour < 24) (hm : t.minute < 60)
    (h : data.drop pos = NightlightSettings.naive_time_to_bytes t tt ++ rest) :
    NightlightSettings.parse_time_type_block data pos tt
      = .ok (t.hour, t.minute, pos + (NightlightSettings.naive_time_to_bytes t tt).length) := by
  have hshape : data.drop pos
      = tt.get_prefix_identifier
        ++ (((if t.hour > 0 then [TIME_BLOCK_HOUR_IDENTIFIER_PREFIX_BYTE, t.hour] else [])
          ++ ((if t.minute > 0 then [TIME_BLOCK_MINUTE_IDENTIFIER_PREFIX_BYTE, t.minute] else [])
            ++ [TIME_BLOCK_TERMINAL_BYTE])) ++ rest) := by
    rw [h, naive_time_to_bytes_eq t tt hh hm, List.append_assoc]
  have hpos : pos ≤ data.length :=
    drop_pos_le data pos _ _ hshape (get_prefix_identifier_ne_nil tt)
  have hbody0 : data.drop (pos + tt.get_prefix_identifier.length)
      = ((if t.hour > 0 then [TIME_BLOCK_HOUR_IDENTIFIER_PREFIX_BYTE, t.hour] else [])
          ++ ((if t.minute > 0 then [TIME_BLOCK_MINUTE_IDENTIFIER_PREFIX_BYTE, t.minute] else [])
            ++ [TIME_BLOCK_TERMINAL_BYTE])) ++ rest :=
    drop_advance data pos _ _ _ hshape rfl
  have hbody : data.drop (pos + tt.get_prefix_identifier.length)
      = (if t.hour > 0 then [TIME_BLOCK_HOUR_IDENTIFIER_PREFIX_BYTE, t.hour] else [])
        ++ ((if t.minute > 0 then [TIME_BLOCK_MINUTE_IDENTIFIER_PREFIX_BYTE, t.minute] else [])
          ++ (TIME_BLOCK_TERMINAL_BYTE :: rest)) := by
    rw [hbody0]
    simp [List.append_assoc]
  simp only [NightlightSettings.parse_time_type_block]
  rw [slice?_drop data pos tt.get_prefix_identifier _ tt.get_prefix_identifier.length hshape
      rfl hpos, ebind_ok, if_neg (by simp)]
  rw [thmb_drop data (pos + tt.get_prefix_identifier.length) t.hour t.minute rest hh hm hbody]
  rw [naive_time_to_bytes_length t tt hh hm, get_prefix_identifier_length, Nat.add_assoc]

theorem sched_enabled_present_drop (data : Bytes) (pos : Nat) (rest : Bytes)
    (h : data.drop pos = SCHEDULE_ENABLED_BYTES ++ rest) :
    NightlightSettings.parse_is_schedule_enabled_block data pos = .ok (true, pos + 2) := by
  have hpos : pos ≤ data.length := drop_pos_le data pos _ _ h (by decide)
  unfold NightlightSettings.parse_is_schedule_enabled_block
  rw [slice?_drop data pos SCHEDULE_ENABLED_BYTES rest _ h rfl hpos, ebind_ok,
    if_neg (by simp)]
  rfl

theorem sched_enabled_absent_drop (data : Bytes) (pos : Nat) (b0 b1 : Byte) (rest : Bytes)
    (h : data.drop pos = b0 :: (b1 :: rest)) (hne : b0 ≠ 0x02 ∨ b1 ≠ 0x01) :
    NightlightSettings.parse_is_schedule_enabled_block data pos = .ok (false, pos) := by
  have hpos : pos ≤ data.length := drop_pos_le data pos [b0, b1] rest (by simpa using h) (by simp)
  have hcond : ([b0, b1] : Bytes) ≠ SCHEDULE_ENABLED_BYTES := by
    intro hc
    rw [show SCHEDULE_ENABLED_BYTES = [0x02, 0x01] from rfl] at hc
    injection hc with e1 e2
    injection e2 with e2 _
    rcases hne with h' | h'
    · exact h' e1
    · exact h' e2
  unfold NightlightSettings.parse_is_schedule_enabled_block
  rw [slice?_drop data pos [b0, b1] rest SCHEDULE_ENABLED_BYTES.length (by simpa using h) rfl
      hpos, ebind_ok, if_pos hcond]
  try rfl

theorem set_hours_present_drop (data : Bytes) (pos : Nat) (rest : Bytes)
    (h : data.drop pos = SCHEDULE_MODE_SET_HOURS_ENABLED_BYTES ++ rest) :
    NightlightSettings.parse_is_schedule_mode_set_hours_enabled_block data pos
      = .ok (true, pos + 3) := by
  have hpos : pos ≤ data.length := drop_pos_le data pos _ _ h (by decide)
  unfold NightlightSettings.parse_is_schedule_mode_set_hours_enabled_block
  rw [slice?_drop data pos SCHEDULE_MODE_SET_HOURS_ENABLED_BYTES rest _ h rfl hpos, ebind_ok,
    if_neg (by simp)]
  rfl

theorem set_hours_absent_drop (data : Bytes) (pos : Nat) (b0 b1 b2 : Byte) (rest : Bytes)
    (h : data.drop pos = b0 :: (b1 :: (b2 :: rest))) (hne : b0 ≠ 0xC2 ∨ b1 ≠ 0x0A ∨ b2 ≠ 0x00) :
    NightlightSettings.parse_is_schedule_mode_set_hours_enabled_block data pos
      = .ok (false, pos) := by
  have hpos : pos ≤ data.length :=
    drop_pos_le data pos [b0, b1, b2] rest (by simpa using h) (by simp)
  have hcond : ([b0, b1, b2] : Bytes) ≠ SCHEDULE_MODE_SET_HOURS_ENABLED_BYTES := by
    intro hc
    rw [show SCHEDULE_MODE_SET_HOURS_ENABLED_BYTES = [0xC2, 0x0A, 0x00] from rfl] at hc
    injection hc with e1 e2
    injection e2 with e2 e3
    injection e3 with e3 _
    rcases hne with h' | h' | h'
    · exact h' e1
    · exact h' e2
    · exact h' e3
  unfold NightlightSettings.parse_is_schedule_mode_set_hours_enabled_block
  rw [slice?_drop data pos [b0, b1, b2] rest SCHEDULE_MODE_SET_HOURS_ENABLED_BYTES.length
      (by simpa using h) rfl hpos, ebind_ok, if_pos hcond]
  try rfl

theorem state_enabled_present_drop (data : Bytes) (pos : Nat) (rest : Bytes)
    (h : data.drop pos = NIGHTLIGHT_STATE_ENABLED_BYTES ++ rest) :
    NightlightState.parse_is_enabled_block data pos = .ok (true, pos + 2) := by
  have hpos : pos ≤ data.length := drop_pos_le data pos _ _ h (by decide)
  unfold NightlightState.parse_is_enabled_block
  rw [slice?_drop data pos NIGHTLIGHT_STATE_ENABLED_BYTES rest _ h rfl hpos, ebind_ok,
    if_pos rfl]
  rfl

theorem state_enabled_absent_drop (data : Bytes) (pos : Nat) (b0 b1 : Byte) (rest : Bytes)
    (h : data.drop pos = b0 :: (b1 :: rest)) (hne : b0 ≠ 0x10 ∨ b1 ≠ 0x00) :
    NightlightState.parse_is_enabled_block data pos = .ok (false, pos) := by
  have hpos : pos ≤ data.length := drop_pos_le data pos [b0, b1] rest (by simpa using h) (by simp)
  have hcond : ¬ (([b0, b1] : Bytes) = NIGHTLIGHT_STATE_ENABLED_BYTES) := by
    intro hc
    rw [show NIGHTLIGHT_STATE_ENABLED_BYTES = [0x10, 0x00] from rfl] at hc
    injection hc with e1 e2
    injection e2 with e2 _
    rcases hne with h' | h'
    · exact h' e1
    · exact h' e2
  unfold NightlightState.parse_is_enabled_block
  rw [slice?_drop data pos [b0, b1] rest NIGHTLIGHT_STATE_ENABLED_BYTES.length
      (by simpa using h) rfl hpos, ebind_ok, if_neg hcond]
  try rfl

theorem kelvin_to_bytes_eq (v : Nat) :
    kelvin_to_bytes v = [v % 64 * 2 + 128, v / 64 % 256] := by
  unfold kelvin_to_bytes
  rw [show (0x3F : Nat) = 63 from rfl, land_63_eq, Nat.shiftRight_eq_div_pow]
  have e0 : (v % 64 * 2 + 0x80) % 256 = v % 64 * 2 + 128 := by omega
  rw [e0]

theorem kelvin_roundtrip (v : Nat) (h : v < 2 ^ 14) :
    kelvin_from_bytes (kelvin_to_bytes v) = v := by
  rw [kelvin_to_bytes_eq]
  unfold kelvin_from_bytes
  have gd0 : List.getD [v % 64 * 2 + 128, v / 64 % 256] 0 0 = v % 64 * 2 + 128 := rfl
  have gd1 : List.getD [v % 64 * 2 + 128, v / 64 % 256] 1 0 = v / 64 % 256 := rfl
  rw [gd0, gd1, Nat.shiftLeft_eq]
  have e2 : (v % 64 * 2 + 128 + 0x80) % 256 / 2 = v % 64 := by omega
  rw [e2, show v / 64 % 256 * 2 ^ 6 = 2 ^ 6 * (v / 64 % 256) by ring,
    lor_mul_pow 6 _ _ (by omega)]
  omega

theorem color_block_drop (data : Bytes) (pos : Nat) (v : Nat) (rest : Bytes)
    (h : data.drop pos = COLOR_TEMPERATURE_PREFIX_BYTES ++ (kelvin_to_bytes v ++ rest)) :
    NightlightSettings.parse_color_temperature_block data pos
      = .ok (kelvin_from_bytes (kelvin_to_bytes v), pos + 2 + 2) := by
  have hpos : pos ≤ data.length := drop_pos_le data pos _ _ h (by decide)
  have hlen : data.length - pos = 2 + (2 + rest.length) := by
    have hl := List.length_drop pos data
    rw [h] at hl
    simp only [List.length_append, COLOR_TEMPERATURE_PREFIX_BYTES_length,
      show (kelvin_to_bytes v).length = 2 from rfl] at hl
    omega
  have h1 : data.drop (pos + COLOR_TEMPERATURE_PREFIX_BYTES.length)
      = kelvin_to_bytes v ++ rest :=
    drop_advance data pos _ _ _ h rfl
  simp only [NightlightSettings.parse_color_temperature_block]
  rw [slice?_drop data pos COLOR_TEMPERATURE_PREFIX_BYTES _
      COLOR_TEMPERATURE_PREFIX_BYTES.length h rfl hpos, ebind_ok, if_neg (by simp)]
  rw [slice?_drop data (pos + COLOR_TEMPERATURE_PREFIX_BYTES.length) (kelvin_to_bytes v) rest
      COLOR_TEMPERATURE_SIZE h1 rfl (by simp at hpos ⊢; omega), ebind_ok]
  rw [show try_into_array (kelvin_to_bytes v) COLOR_TEMPERATURE_SIZE = .ok (kelvin_to_bytes v)
      from rfl, ebind_ok]
  rfl

theorem state_remaining_drop (data : Bytes) (pos : Nat) (payload : Bytes)
    (h : data.drop pos = payload ++ STRUCT_FOOTER_BYTES) :
    NightlightState.parse_remaining_data_block data pos
      = .ok (payload, pos + payload.length) := by
  have hpos : pos ≤ data.length := by
    by_contra hc
    push_neg at hc
    rw [List.drop_eq_nil_of_le (Nat.le_of_lt hc)] at h
    have := congrArg List.length h
    simp at this
  have hlen : data.length = pos + payload.length + 4 := by
    have hl := List.length_drop pos data
    rw [h] at hl
    simp at hl
    omega
  unfold NightlightState.parse_remaining_data_block
  rw [if_neg (by simp; omega)]
  have hslice : slice? data pos (data.length - STRUCT_FOOTER_BYTES.length) = .ok payload := by
    unfold slice?
    rw [if_pos (by simp; omega)]
    have e1 : data.length - STRUCT_FOOTER_BYTES.length - pos = payload.length := by
      simp; omega
    rw [e1, h, List.take_left]
  rw [hslice, ebind_ok]
  rfl

/-! ### Serializer shape lemmas and the State round trip -/

theorem state_serialize_shape (s : NightlightState) :
    s.serialize_to_bytes
      = STRUCT_HEADER_BYTES ++ (TIMESTAMP_HEADER_BYTES ++ (TIMESTAMP_PREFIX_BYTES
          ++ (timestamp_to_bytes s.timestamp ++ (TIMESTAMP_SUFFIX_BYTES
            ++ (((s.remaining_struct_bytes.length % 256 + 1) % 256)
              :: (s.remaining_struct_bytes ++ STRUCT_FOOTER_BYTES)))))) := by
  simp only [NightlightState.serialize_to_bytes]
  simp [List.append_assoc]

theorem state_serialize_length (s : NightlightState) :
    s.serialize_to_bytes.length = 23 + s.remaining_struct_bytes.length := by
  rw [state_serialize_shape]
  simp [List.length_append]
  omega

theorem state_inner_shape_true (s : NightlightState) (h : s.is_enabled = true) :
    s.remaining_struct_bytes
      = STRUCT_HEADER_BYTES ++ (NIGHTLIGHT_STATE_ENABLED_BYTES ++ s.remaining_data) := by
  simp only [NightlightState.remaining_struct_bytes, h, if_pos, List.append_assoc]

theorem state_inner_shape_false (s : NightlightState) (h : s.is_enabled = false) :
    s.remaining_struct_bytes = STRUCT_HEADER_BYTES ++ s.remaining_data := by
  simp only [NightlightState.remaining_struct_bytes, h, Bool.false_eq_true, if_false,
    List.append_nil, List.append_assoc]


theorem state_roundtrip_true (ts : Nat) (pl : Bytes)
    (hts : ts < 2 ^ 36)
    (hinner : (NightlightState.mk ts true pl).remaining_struct_bytes.length + 1 ≤ 255) :
    NightlightState.deserialize_from_bytes (NightlightState.mk ts true pl).serialize_to_bytes
      = .ok (NightlightState.mk ts true pl) := by
  obtain ⟨d, hd⟩ : ∃ d, d = (NightlightState.mk ts true pl).serialize_to_bytes := ⟨_, rfl⟩
  rw [← hd]
  rw [state_serialize_shape] at hd
  have hdlen : d.length = 23 + (NightlightState.mk ts true pl).remaining_struct_bytes.length := by
    rw [hd]
    simp [List.length_append]
    omega
  have hil : (NightlightState.mk ts true pl).remaining_struct_bytes.length = 6 + pl.length := by
    rw [state_inner_shape_true _ rfl]
    simp [List.length_append]
    omega
  have ha : d.drop 0 = STRUCT_HEADER_BYTES
      ++ (TIMESTAMP_HEADER_BYTES ++ (TIMESTAMP_PREFIX_BYTES
        ++ (timestamp_to_bytes ts ++ (TIMESTAMP_SUFFIX_BYTES
          ++ ((((NightlightState.mk ts true pl).remaining_struct_bytes.length % 256 + 1) % 256)
            :: ((NightlightState.mk ts true pl).remaining_struct_bytes ++ STRUCT_FOOTER_BYTES)))))) := by
    rw [List.drop_zero, hd]
  have hb : d.drop 4 = TIMESTAMP_HEADER_BYTES ++ (TIMESTAMP_PREFIX_BYTES
      ++ (timestamp_to_bytes ts ++ (TIMESTAMP_SUFFIX_BYTES
        ++ ((((NightlightState.mk ts true pl).remaining_struct_bytes.length % 256 + 1) % 256)
          :: ((NightlightState.mk ts true pl).remaining_struct_bytes ++ STRUCT_FOOTER_BYTES))))) :=
    drop_advance d 0 4 _ _ ha rfl
  have hb1 := drop_advance d 4 4 _ _ hb rfl
  have hb2 := drop_advance d (4 + 4) 2 _ _ hb1 rfl
  have hb3 := drop_advance d (4 + 4 + 2) 5 _ _ hb2 rfl
  have hc : d.drop 18
      = (((NightlightState.mk ts true pl).remaining_struct_bytes.length % 256 + 1) % 256)
        :: ((NightlightState.mk ts true pl).remaining_struct_bytes ++ STRUCT_FOOTER_BYTES) :=
    drop_advance d (4 + 4 + 2 + 5) 3 _ _ hb3 rfl
  have he : d.drop 19
      = (NightlightState.mk ts true pl).remaining_struct_bytes ++ STRUCT_FOOTER_BYTES :=
    drop_advance1 d 18 _ _ hc
  have he' : d.drop 19 = STRUCT_HEADER_BYTES
      ++ (NIGHTLIGHT_STATE_ENABLED_BYTES ++ (pl ++ STRUCT_FOOTER_BYTES)) := by
    rw [he, state_inner_shape_true _ rfl]
    simp [List.append_assoc]
  have hf : d.drop 23 = NIGHTLIGHT_STATE_ENABLED_BYTES ++ (pl ++ STRUCT_FOOTER_BYTES) :=
    drop_advance d 19 4 _ _ he' rfl
  have hg : d.drop 25 = pl ++ STRUCT_FOOTER_BYTES :=
    drop_advance d 23 2 _ _ hf rfl
  have hfoot : d.drop (25 + pl.length) = STRUCT_FOOTER_BYTES ++ [] := by
    have step := drop_advance d 25 pl.length pl STRUCT_FOOTER_BYTES hg rfl
    simpa using step
  have hsz : ((NightlightState.mk ts true pl).remaining_struct_bytes.length % 256 + 1) % 256
      = (NightlightState.mk ts true pl).remaining_struct_bytes.length + 1 := by
    omega
  unfold NightlightState.deserialize_from_bytes
  simp only [state_header_block_drop d 0 _ ha (by omega),
    ts_block_drop d 4 ts _ hb (by omega),
    timestamp_roundtrip ts hts,
    readByte_drop d 18 _ _ hc,
    hsz,
    state_header_block_drop d 19 _ he' (by omega),
    state_enabled_present_drop d 23 _ hf,
    state_remaining_drop d 25 pl hg,
    state_footer_block_drop d (25 + pl.length) _ hfoot (by omega),
    ebind_ok, ebind_pure, Nat.reduceAdd, STRUCT_FOOTER_BYTES_length,
    if_neg (show ¬ (d.length
      ≠ (NightlightState.mk ts true pl).remaining_struct_bytes.length + 1 + 18 + 4) by omega),
    if_neg (show ¬ (25 + pl.length + 4 ≠ d.length) by omega)]
  rfl

theorem state_roundtrip_false (ts : Nat) (pl : Bytes)
    (hts : ts < 2 ^ 36)
    (hinner : (NightlightState.mk ts false pl).remaining_struct_bytes.length + 1 ≤ 255)
    (hmark : (pl ++ STRUCT_FOOTER_BYTES).take 2 ≠ [0x10, 0x00]) :
    NightlightState.deserialize_from_bytes (NightlightState.mk ts false pl).serialize_to_bytes
      = .ok (NightlightState.mk ts false pl) := by
  obtain ⟨d, hd⟩ : ∃ d, d = (NightlightState.mk ts false pl).serialize_to_bytes := ⟨_, rfl⟩
  rw [← hd]
  rw [state_serialize_shape] at hd
  have hdlen : d.length = 23 + (NightlightState.mk ts false pl).remaining_struct_bytes.length := by
    rw [hd]
    simp [List.length_append]
    omega
  have hil : (NightlightState.mk ts false pl).remaining_struct_bytes.length = 4 + pl.length := by
    rw [state_inner_shape_false _ rfl]
    simp [List.length_append]
  have ha : d.drop 0 = STRUCT_HEADER_BYTES
      ++ (TIMESTAMP_HEADER_BYTES ++ (TIMESTAMP_PREFIX_BYTES
        ++ (timestamp_to_bytes ts ++ (TIMESTAMP_SUFFIX_BYTES
          ++ ((((NightlightState.mk ts false pl).remaining_struct_bytes.length % 256 + 1) % 256)
            :: ((NightlightState.mk ts false pl).remaining_struct_bytes ++ STRUCT_FOOTER_BYTES)))))) := by
    rw [List.drop_zero, hd]
  have hb : d.drop 4 = TIMESTAMP_HEADER_BYTES ++ (TIMESTAMP_PREFIX_BYTES
      ++ (timestamp_to_bytes ts ++ (TIMESTAMP_SUFFIX_BYTES
        ++ ((((NightlightState.mk ts false pl).remaining_struct_bytes.length % 256 + 1) % 256)
          :: ((NightlightState.mk ts false pl).remaining_struct_bytes ++ STRUCT_FOOTER_BYTES))))) :=
    drop_advance d 0 4 _ _ ha rfl
  have hb1 := drop_advance d 4 4 _ _ hb rfl
  have hb2 := drop_advance d (4 + 4) 2 _ _ hb1 rfl
  have hb3 := drop_advance d (4 + 4 + 2) 5 _ _ hb2 rfl
  have hc : d.drop 18
      = (((NightlightState.mk ts false pl).remaining_struct_bytes.length % 256 + 1) % 256)
        :: ((NightlightState.mk ts false pl).remaining_struct_bytes ++ STRUCT_FOOTER_BYTES) :=
    drop_advance d (4 + 4 + 2 + 5) 3 _ _ hb3 rfl
  have he : d.drop 19
      = (NightlightState.mk ts false pl).remaining_struct_bytes ++ STRUCT_FOOTER_BYTES :=
    drop_advance1 d 18 _ _ hc
  have he' : d.drop 19 = STRUCT_HEADER_BYTES ++ (pl ++ STRUCT_FOOTER_BYTES) := by
    rw [he, state_inner_shape_false _ rfl]
    simp [List.append_assoc]
  have hf : d.drop 23 = pl ++ STRUCT_FOOTER_BYTES :=
    drop_advance d 19 4 _ _ he' rfl
  obtain ⟨b0, l1, e1⟩ : ∃ b0 l1, pl ++ STRUCT_FOOTER_BYTES = b0 :: l1 := by
    cases hpl : pl ++ STRUCT_FOOTER_BYTES with
    | nil =>
      have := congrArg List.length hpl
      simp at this
    | cons x xs => exact ⟨x, xs, rfl⟩
  obtain ⟨b1, l2, e2⟩ : ∃ b1 l2, l1 = b1 :: l2 := by
    cases hl1 : l1 with
    | nil =>
      rw [hl1] at e1
      have := congrArg List.length e1
      simp at this
    | cons x xs => exact ⟨x, xs, rfl⟩
  have hfc : d.drop 23 = b0 :: (b1 :: l2) := by rw [hf, e1, e2]
  have hne : b0 ≠ 0x10 ∨ b1 ≠ 0x00 := by
    by_contra hcon
    push_neg at hcon
    apply hmark
    rw [e1, e2, hcon.1, hcon.2]
    rfl
  have hfoot : d.drop (23 + pl.length) = STRUCT_FOOTER_BYTES ++ [] := by
    have step := drop_advance d 23 pl.length pl STRUCT_FOOTER_BYTES hf rfl
    simpa using step
  have hsz : ((NightlightState.mk ts false pl).remaining_struct_bytes.length % 256 + 1) % 256
      = (NightlightState.mk ts false pl).remaining_struct_bytes.length + 1 := by
    omega
  unfold NightlightState.deserialize_from_bytes
  simp only [state_header_block_drop d 0 _ ha (by omega),
    ts_block_drop d 4 ts _ hb (by omega),
    timestamp_roundtrip ts hts,
    readByte_drop d 18 _ _ hc,
    hsz,
    state_header_block_drop d 19 _ he' (by omega),
    state_enabled_absent_drop d 23 b0 b1 l2 hfc hne,
    state_remaining_drop d 23 pl hf,
    state_footer_block_drop d (23 + pl.length) _ hfoot (by omega),
    ebind_ok, ebind_pure, Nat.reduceAdd, STRUCT_FOOTER_BYTES_length,
    if_neg (show ¬ (d.length
      ≠ (NightlightState.mk ts false pl).remaining_struct_bytes.length + 1 + 18 + 4) by omega),
    if_neg (show ¬ (23 + pl.length + 4 ≠ d.length) by omega)]
  rfl

/-! ### The Settings round trip -/

theorem time_to_naive_time_id (t : NaiveTime) (hh : t.hour < 24) (hm : t.minute < 60)
    (hs : t.second = 0) :
    time_to_naive_time t.hour t.minute = .ok t := by
  unfold time_to_naive_time NaiveTime.from_hms_opt
  rw [if_pos ⟨hh, hm, by omega⟩]
  cases t with
  | mk th tm tsec =>
    simp only at hs
    rw [hs]

theorem settings_ts_block_drop (data : Bytes) (pos : Nat) (t : Nat) (rest : Bytes)
    (h : data.drop pos
      = TIMESTAMP_HEADER_BYTES ++ (TIMESTAMP_PREFIX_BYTES
          ++ (timestamp_to_bytes t ++ (TIMESTAMP_SUFFIX_BYTES ++ rest))))
    (hpos : pos ≤ data.length) :
    NightlightSettings.parse_last_modified_timestamp_block data pos
      = .ok (timestamp_from_bytes (timestamp_to_bytes t), pos + 14) :=
  ts_block_drop data pos t rest h hpos

theorem settings_serialize_shape (s : NightlightSettings) :
    s.serialize_to_bytes
      = STRUCT_HEADER_BYTES ++ (TIMESTAMP_HEADER_BYTES ++ (TIMESTAMP_PREFIX_BYTES
          ++ (timestamp_to_bytes s.timestamp ++ (TIMESTAMP_SUFFIX_BYTES
            ++ (((s.remaining_struct_bytes.length % 256 + 1) % 256)
              :: (s.remaining_struct_bytes ++ STRUCT_FOOTER_BYTES)))))) := by
  simp only [NightlightSettings.serialize_to_bytes]
  simp [List.append_assoc]

theorem settings_serialize_length (s : NightlightSettings) :
    s.serialize_to_bytes.length = 23 + s.remaining_struct_bytes.length := by
  rw [settings_serialize_shape]
  simp [List.length_append]
  omega

theorem settings_inner_shape_off (s : NightlightSettings) (h : s.schedule_mode = .Off) :
    s.remaining_struct_bytes
      = STRUCT_HEADER_BYTES
        ++ (NightlightSettings.naive_time_to_bytes s.start_time .ScheduleStart
        ++ (NightlightSettings.naive_time_to_bytes s.end_time .ScheduleEnd
        ++ (COLOR_TEMPERATURE_PREFIX_BYTES
        ++ (kelvin_to_bytes s.color_temperature
        ++ (NightlightSettings.naive_time_to_bytes s.sunset_time .Sunset
        ++ NightlightSettings.naive_time_to_bytes s.sunrise_time .Sunrise))))) := by
  simp only [NightlightSettings.remaining_struct_bytes, h]
  simp [List.append_assoc]

theorem settings_inner_shape_sts (s : NightlightSettings)
    (h : s.schedule_mode = .SunsetToSunrise) :
    s.remaining_struct_bytes
      = STRUCT_HEADER_BYTES
        ++ (SCHEDULE_ENABLED_BYTES
        ++ (NightlightSettings.naive_time_to_bytes s.start_time .ScheduleStart
        ++ (NightlightSettings.naive_time_to_bytes s.end_time .ScheduleEnd
        ++ (COLOR_TEMPERATURE_PREFIX_BYTES
        ++ (kelvin_to_bytes s.color_temperature
        ++ (NightlightSettings.naive_time_to_bytes s.sunset_time .Sunset
        ++ NightlightSettings.naive_time_to_bytes s.sunrise_time .Sunrise)))))) := by
  simp only [NightlightSettings.remaining_struct_bytes, h]
  simp [List.append_assoc]

theorem settings_inner_shape_sh (s : NightlightSettings) (h : s.schedule_mode = .SetHours) :
    s.remaining_struct_bytes
      = STRUCT_HEADER_BYTES
        ++ (SCHEDULE_ENABLED_BYTES
        ++ (SCHEDULE_MODE_SET_HOURS_ENABLED_BYTES
        ++ (NightlightSettings.naive_time_to_bytes s.start_time .ScheduleStart
        ++ (NightlightSettings.naive_time_to_bytes s.end_time .ScheduleEnd
        ++ (COLOR_TEMPERATURE_PREFIX_BYTES
        ++ (kelvin_to_bytes s.color_temperature
        ++ (NightlightSettings.naive_time_to_bytes s.sunset_time .Sunset
        ++ NightlightSettings.naive_time_to_bytes s.sunrise_time .Sunrise))))))) := by
  simp only [NightlightSettings.remaining_struct_bytes, h]
  simp [List.append_assoc]

theorem naive_time_to_bytes_length_le (t : NaiveTime) (tt : TimeBlockType) :
    (NightlightSettings.naive_time_to_bytes t tt).length ≤ 7 := by
  simp only [NightlightSettings.naive_time_to_bytes, List.length_append,
    get_prefix_identifier_length]
  split_ifs <;> simp

theorem settings_inner_le (s : NightlightSettings) : s.remaining_struct_bytes.length ≤ 41 := by
  have l1 := naive_time_to_bytes_length_le s.start_time .ScheduleStart
  have l2 := naive_time_to_bytes_length_le s.end_time .ScheduleEnd
  have l3 := naive_time_to_bytes_length_le s.sunset_time .Sunset
  have l4 := naive_time_to_bytes_length_le s.sunrise_time .Sunrise
  have lk : (kelvin_to_bytes s.color_temperature).length = 2 := rfl
  simp only [NightlightSettings.remaining_struct_bytes, List.length_append]
  cases s.schedule_mode <;> simp <;> omega

theorem settings_roundtrip (s : NightlightSettings)
    (hts : s.timestamp < 2 ^ 36) (hct : s.color_temperature < 2 ^ 14)
    (hs1 : s.start_time.hour < 24) (hs2 : s.start_time.minute < 60) (hs3 : s.start_time.second = 0)
    (he1 : s.end_time.hour < 24) (he2 : s.end_time.minute < 60) (he3 : s.end_time.second = 0)
    (hu1 : s.sunset_time.hour < 24) (hu2 : s.sunset_time.minute < 60) (hu3 : s.sunset_time.second = 0)
    (hr1 : s.sunrise_time.hour < 24) (hr2 : s.sunrise_time.minute < 60) (hr3 : s.sunrise_time.second = 0) :
    NightlightSettings.deserialize_from_bytes s.serialize_to_bytes = .ok s := by
  obtain ⟨d, hd⟩ : ∃ d, d = s.serialize_to_bytes := ⟨_, rfl⟩
  rw [← hd]
  rw [settings_serialize_shape] at hd
  have hile := settings_inner_le s
  have hdlen : d.length = 23 + s.remaining_struct_bytes.length := by
    rw [hd]
    simp [List.length_append]
    omega
  have ha : d.drop 0 = STRUCT_HEADER_BYTES
      ++ (TIMESTAMP_HEADER_BYTES ++ (TIMESTAMP_PREFIX_BYTES
        ++ (timestamp_to_bytes s.timestamp ++ (TIMESTAMP_SUFFIX_BYTES
          ++ (((s.remaining_struct_bytes.length % 256 + 1) % 256)
            :: (s.remaining_struct_bytes ++ STRUCT_FOOTER_BYTES)))))) := by
    rw [List.drop_zero, hd]
  have hb : d.drop 4 = TIMESTAMP_HEADER_BYTES ++ (TIMESTAMP_PREFIX_BYTES
      ++ (timestamp_to_bytes s.timestamp ++ (TIMESTAMP_SUFFIX_BYTES
        ++ (((s.remaining_struct_bytes.length % 256 + 1) % 256)
          :: (s.remaining_struct_bytes ++ STRUCT_FOOTER_BYTES))))) :=
    drop_advance d 0 4 _ _ ha rfl
  have hb1 := drop_advance d 4 4 _ _ hb rfl
  have hb2 := drop_advance d (4 + 4) 2 _ _ hb1 rfl
  have hb3 := drop_advance d (4 + 4 + 2) 5 _ _ hb2 rfl
  have hc : d.drop 18
      = (((s.remaining_struct_bytes.length % 256 + 1) % 256)
        :: (s.remaining_struct_bytes ++ STRUCT_FOOTER_BYTES)) :=
    drop_advance d (4 + 4 + 2 + 5) 3 _ _ hb3 rfl
  have he : d.drop 19 = s.remaining_struct_bytes ++ STRUCT_FOOTER_BYTES :=
    drop_advance1 d 18 _ _ hc
  have hsz : (s.remaining_struct_bytes.length % 256 + 1) % 256
      = s.remaining_struct_bytes.length + 1 := by
    omega
  rcases hmode : s.schedule_mode with _ | _ | _
  · -- Off
    have he' : d.drop 19 = STRUCT_HEADER_BYTES
        ++ (NightlightSettings.naive_time_to_bytes s.start_time .ScheduleStart
        ++ (NightlightSettings.naive_time_to_bytes s.end_time .ScheduleEnd
        ++ (COLOR_TEMPERATURE_PREFIX_BYTES
        ++ (kelvin_to_bytes s.color_temperature
        ++ (NightlightSettings.naive_time_to_bytes s.sunset_time .Sunset
        ++ (NightlightSettings.naive_time_to_bytes s.sunrise_time .Sunrise
        ++ STRUCT_FOOTER_BYTES)))))) := by
      rw [he, settings_inner_shape_off s hmode]
      simp [List.append_assoc]
    have hil : s.remaining_struct_bytes.length
        = 4 + ((NightlightSettings.naive_time_to_bytes s.start_time .ScheduleStart).length
          + ((NightlightSettings.naive_time_to_bytes s.end_time .ScheduleEnd).length
          + (2 + (2 + ((NightlightSettings.naive_time_to_bytes s.sunset_time .Sunset).length
          + (NightlightSettings.naive_time_to_bytes s.sunrise_time .Sunrise).length))))) := by
      rw [settings_inner_shape_off s hmode]
      simp [List.length_append, show (kelvin_to_bytes s.color_temperature).length = 2 from rfl]
    have hf : d.drop 23
        = NightlightSettings.naive_time_to_bytes s.start_time .ScheduleStart
          ++ (NightlightSettings.naive_time_to_bytes s.end_time .ScheduleEnd
          ++ (COLOR_TEMPERATURE_PREFIX_BYTES
          ++ (kelvin_to_bytes s.color_temperature
          ++ (NightlightSettings.naive_time_to_bytes s.sunset_time .Sunset
          ++ (NightlightSettings.naive_time_to_bytes s.sunrise_time .Sunrise
          ++ STRUCT_FOOTER_BYTES))))) :=
      drop_advance d 19 4 _ _ he' rfl
    have htb1 : NightlightSettings.naive_time_to_bytes s.start_time .ScheduleStart
        = [(0xCA : Nat), 0x14]
          ++ ((if s.start_time.hour > 0 then [(0x0E : Nat), s.start_time.hour] else [])
            ++ ((if s.start_time.minute > 0 then [(0x2E : Nat), s.start_time.minute] else [])
              ++ [0x00])) := by
      rw [naive_time_to_bytes_eq _ _ hs1 hs2]
      rfl
    have hfpre : d.drop 23
        = [(0xCA : Nat), 0x14]
          ++ (((if s.start_time.hour > 0 then [(0x0E : Nat), s.start_time.hour] else [])
            ++ ((if s.start_time.minute > 0 then [(0x2E : Nat), s.start_time.minute] else [])
              ++ [0x00]))
          ++ (NightlightSettings.naive_time_to_bytes s.end_time .ScheduleEnd
          ++ (COLOR_TEMPERATURE_PREFIX_BYTES
          ++ (kelvin_to_bytes s.color_temperature
          ++ (NightlightSettings.naive_time_to_bytes s.sunset_time .Sunset
          ++ (NightlightSettings.naive_time_to_bytes s.sunrise_time .Sunrise
          ++ STRUCT_FOOTER_BYTES)))))) := by
      rw [hf, htb1, List.append_assoc]
    obtain ⟨c0, r2, hcase⟩ : ∃ c0 r2,
        ((if s.start_time.hour > 0 then [(0x0E : Nat), s.start_time.hour] else [])
          ++ ((if s.start_time.minute > 0 then [(0x2E : Nat), s.start_time.minute] else [])
            ++ [0x00]))
          ++ (NightlightSettings.naive_time_to_bytes s.end_time .ScheduleEnd
          ++ (COLOR_TEMPERATURE_PREFIX_BYTES
          ++ (kelvin_to_bytes s.color_temperature
          ++ (NightlightSettings.naive_time_to_bytes s.sunset_time .Sunset
          ++ (NightlightSettings.naive_time_to_bytes s.sunrise_time .Sunrise
          ++ STRUCT_FOOTER_BYTES))))) = c0 :: r2 := by
      cases hx : ((if s.start_time.hour > 0 then [(0x0E : Nat), s.start_time.hour] else [])
          ++ ((if s.start_time.minute > 0 then [(0x2E : Nat), s.start_time.minute] else [])
            ++ [0x00]))
          ++ (NightlightSettings.naive_time_to_bytes s.end_time .ScheduleEnd
          ++ (COLOR_TEMPERATURE_PREFIX_BYTES
          ++ (kelvin_to_bytes s.color_temperature
          ++ (NightlightSettings.naive_time_to_bytes s.sunset_time .Sunset
          ++ (NightlightSettings.naive_time_to_bytes s.sunrise_time .Sunrise
          ++ STRUCT_FOOTER_BYTES))))) with
      | nil =>
        exfalso
        have hlx := congrArg List.length hx
        simp [List.length_append] at hlx
      | cons x xs => exact ⟨x, xs, rfl⟩
    have hfc3 : d.drop 23 = 0xCA :: (0x14 :: (c0 :: r2)) := by
      rw [hfpre, hcase]
      rfl
    have hg1 : d.drop (23 + (NightlightSettings.naive_time_to_bytes s.start_time .ScheduleStart).length)
        = NightlightSettings.naive_time_to_bytes s.end_time .ScheduleEnd
          ++ (COLOR_TEMPERATURE_PREFIX_BYTES
          ++ (kelvin_to_bytes s.color_temperature
          ++ (NightlightSettings.naive_time_to_bytes s.sunset_time .Sunset
          ++ (NightlightSettings.naive_time_to_bytes s.sunrise_time .Sunrise
          ++ STRUCT_FOOTER_BYTES)))) :=
      drop_advance d 23 _ _ _ hf rfl
    have hg2 : d.drop (23 + (NightlightSettings.naive_time_to_bytes s.start_time .ScheduleStart).length
          + (NightlightSettings.naive_time_to_bytes s.end_time .ScheduleEnd).length)
        = COLOR_TEMPERATURE_PREFIX_BYTES
          ++ (kelvin_to_bytes s.color_temperature
          ++ (NightlightSettings.naive_time_to_bytes s.sunset_time .Sunset
          ++ (NightlightSettings.naive_time_to_bytes s.sunrise_time .Sunrise
          ++ STRUCT_FOOTER_BYTES))) :=
      drop_advance d _ _ _ _ hg1 rfl
    have hg3 : d.drop (23 + (NightlightSettings.naive_time_to_bytes s.start_time .ScheduleStart).length
          + (NightlightSettings.naive_time_to_bytes s.end_time .ScheduleEnd).length + 2)
        = kelvin_to_bytes s.color_temperature
          ++ (NightlightSettings.naive_time_to_bytes s.sunset_time .Sunset
          ++ (NightlightSettings.naive_time_to_bytes s.sunrise_time .Sunrise
          ++ STRUCT_FOOTER_BYTES)) :=
      drop_advance d _ 2 _ _ hg2 rfl
    have hg4 : d.drop (23 + (NightlightSettings.naive_time_to_bytes s.start_time .ScheduleStart).length
          + (NightlightSettings.naive_time_to_bytes s.end_time .ScheduleEnd).length + 2 + 2)
        = NightlightSettings.naive_time_to_bytes s.sunset_time .Sunset
          ++ (NightlightSettings.naive_time_to_bytes s.sunrise_time .Sunrise
          ++ STRUCT_FOOTER_BYTES) :=
      drop_advance d _ 2 _ _ hg3 rfl
    have hg5 : d.drop (23 + (NightlightSettings.naive_time_to_bytes s.start_time .ScheduleStart).length
          + (NightlightSettings.naive_time_to_bytes s.end_time .ScheduleEnd).length + 2 + 2
          + (NightlightSettings.naive_time_to_bytes s.sunset_time .Sunset).length)
        = NightlightSettings.naive_time_to_bytes s.sunrise_time .Sunrise
          ++ STRUCT_FOOTER_BYTES :=
      drop_advance d _ _ _ _ hg4 rfl
    have hfoot : d.drop (23 + (NightlightSettings.naive_time_to_bytes s.start_time .ScheduleStart).length
          + (NightlightSettings.naive_time_to_bytes s.end_time .ScheduleEnd).length + 2 + 2
          + (NightlightSettings.naive_time_to_bytes s.sunset_time .Sunset).length
          + (NightlightSettings.naive_time_to_bytes s.sunrise_time .Sunrise).length)
        = STRUCT_FOOTER_BYTES ++ [] := by
      have step := drop_advance d _ _ _ _ hg5 rfl
      simpa using step
    unfold NightlightSettings.deserialize_from_bytes
    simp only [settings_header_block_drop d 0 _ ha (by omega),
      settings_ts_block_drop d 4 s.timestamp _ hb (by omega),
      timestamp_roundtrip s.timestamp hts,
      readByte_drop d 18 _ _ hc,
      hsz,
      settings_header_block_drop d 19 _ he' (by omega),
      sched_enabled_absent_drop d 23 0xCA 0x14 _ hfc3 (Or.inl (by norm_num)),
      set_hours_absent_drop d 23 0xCA 0x14 c0 _ hfc3 (Or.inl (by norm_num)),
      time_type_block_drop d 23 s.start_time .ScheduleStart _ hs1 hs2 hf,
      time_type_block_drop d _ s.end_time .ScheduleEnd _ he1 he2 hg1,
      color_block_drop d _ s.color_temperature _ hg2,
      kelvin_roundtrip s.color_temperature hct,
      time_type_block_drop d _ s.sunset_time .Sunset _ hu1 hu2 hg4,
      time_type_block_drop d _ s.sunrise_time .Sunrise _ hr1 hr2 hg5,
      settings_footer_block_drop d _ _ hfoot (by omega),
      time_to_naive_time_id s.start_time hs1 hs2 hs3,
      time_to_naive_time_id s.end_time he1 he2 he3,
      time_to_naive_time_id s.sunset_time hu1 hu2 hu3,
      time_to_naive_time_id s.sunrise_time hr1 hr2 hr3,
      ebind_ok, ebind_pure, Nat.reduceAdd, STRUCT_FOOTER_BYTES_length,
      Bool.false_eq_true, ite_false, ite_true, eq_self_iff_true,
      if_neg (show ¬ (d.length ≠ s.remaining_struct_bytes.length + 1 + 18 + 4) by omega),
      if_neg (show ¬ (23 + (NightlightSettings.naive_time_to_bytes s.start_time .ScheduleStart).length
        + (NightlightSettings.naive_time_to_bytes s.end_time .ScheduleEnd).length + 2 + 2
        + (NightlightSettings.naive_time_to_bytes s.sunset_time .Sunset).length
        + (NightlightSettings.naive_time_to_bytes s.sunrise_time .Sunrise).length + 4
          ≠ d.length) by omega)]
    rw [← hmode]
    rfl
  · -- SunsetToSunrise
    have he' : d.drop 19 = STRUCT_HEADER_BYTES
        ++ (SCHEDULE_ENABLED_BYTES
        ++ (NightlightSettings.naive_time_to_bytes s.start_time .ScheduleStart
        ++ (NightlightSettings.naive_time_to_bytes s.end_time .ScheduleEnd
          ++ (COLOR_TEMPERATURE_PREFIX_BYTES
          ++ (kelvin_to_bytes s.color_temperature
          ++ (NightlightSettings.naive_time_to_bytes s.sunset_time .Sunset
          ++ (NightlightSettings.naive_time_to_bytes s.sunrise_time .Sunrise
          ++ STRUCT_FOOTER_BYTES))))))) := by
      rw [he, settings_inner_shape_sts s hmode]
      simp [List.append_assoc]
    have hil : s.remaining_struct_bytes.length
        = 4 + (2 + ((NightlightSettings.naive_time_to_bytes s.start_time .ScheduleStart).length
          + ((NightlightSettings.naive_time_to_bytes s.end_time .ScheduleEnd).length
          + (2 + (2 + ((NightlightSettings.naive_time_to_bytes s.sunset_time .Sunset).length
          + (NightlightSettings.naive_time_to_bytes s.sunrise_time .Sunrise).length)))))) := by
      rw [settings_inner_shape_sts s hmode]
      simp [List.length_append, show (kelvin_to_bytes s.color_temperature).length = 2 from rfl]
    have hf : d.drop 23 = SCHEDULE_ENABLED_BYTES
        ++ (NightlightSettings.naive_time_to_bytes s.start_time .ScheduleStart
        ++ (NightlightSettings.naive_time_to_bytes s.end_time .ScheduleEnd
          ++ (COLOR_TEMPERATURE_PREFIX_BYTES
          ++ (kelvin_to_bytes s.color_temperature
          ++ (NightlightSettings.naive_time_to_bytes s.sunset_time .Sunset
          ++ (NightlightSettings.naive_time_to_bytes s.sunrise_time .Sunrise
          ++ STRUCT_FOOTER_BYTES)))))) :=
      drop_advance d 19 4 _ _ he' rfl
    have hftb : d.drop 25 = NightlightSettings.naive_time_to_bytes s.start_time .ScheduleStart
        ++ (NightlightSettings.naive_time_to_bytes s.end_time .ScheduleEnd
          ++ (COLOR_TEMPERATURE_PREFIX_BYTES
          ++ (kelvin_to_bytes s.color_temperature
          ++ (NightlightSettings.naive_time_to_bytes s.sunset_time .Sunset
          ++ (NightlightSettings.naive_time_to_bytes s.sunrise_time .Sunrise
          ++ STRUCT_FOOTER_BYTES))))) :=
      drop_advance d 23 2 _ _ hf rfl
    have htb1 : NightlightSettings.naive_time_to_bytes s.start_time .ScheduleStart
        = [(0xCA : Nat), 0x14]
          ++ ((if s.start_time.hour > 0 then [(0x0E : Nat), s.start_time.hour] else [])
            ++ ((if s.start_time.minute > 0 then [(0x2E : Nat), s.start_time.minute] else [])
              ++ [0x00])) := by
      rw [naive_time_to_bytes_eq _ _ hs1 hs2]
      rfl
    have hfpre : d.drop 25
        = [(0xCA : Nat), 0x14]
          ++ (((if s.start_time.hour > 0 then [(0x0E : Nat), s.start_time.hour] else [])
            ++ ((if s.start_time.minute > 0 then [(0x2E : Nat), s.start_time.minute] else [])
              ++ [0x00]))
          ++ (NightlightSettings.naive_time_to_bytes s.end_time .ScheduleEnd
          ++ (COLOR_TEMPERATURE_PREFIX_BYTES
          ++ (kelvin_to_bytes s.color_temperature
          ++ (NightlightSettings.naive_time_to_bytes s.sunset_time .Sunset
          ++ (NightlightSettings.naive_time_to_bytes s.sunrise_time .Sunrise
          ++ STRUCT_FOOTER_BYTES)))))) := by
      rw [hftb, htb1, List.append_assoc]
    obtain ⟨c0, r2, hcase⟩ : ∃ c0 r2,
        ((if s.start_time.hour > 0 then [(0x0E : Nat), s.start_time.hour] else [])
          ++ ((if s.start_time.minute > 0 then [(0x2E : Nat), s.start_time.minute] else [])
            ++ [0x00]))
          ++ (NightlightSettings.naive_time_to_bytes s.end_time .ScheduleEnd
          ++ (COLOR_TEMPERATURE_PREFIX_BYTES
          ++ (kelvin_to_bytes s.color_temperature
          ++ (NightlightSettings.naive_time_to_bytes s.sunset_time .Sunset
          ++ (NightlightSettings.naive_time_to_bytes s.sunrise_time .Sunrise
          ++ STRUCT_FOOTER_BYTES))))) = c0 :: r2 := by
      cases hx : ((if s.start_time.hour > 0 then [(0x0E : Nat), s.start_time.hour] else [])
          ++ ((if s.start_time.minute > 0 then [(0x2E : Nat), s.start_time.minute] else [])
            ++ [0x00]))
          ++ (NightlightSettings.naive_time_to_bytes s.end_time .ScheduleEnd
          ++ (COLOR_TEMPERATURE_PREFIX_BYTES
          ++ (kelvin_to_bytes s.color_temperature
          ++ (NightlightSettings.naive_time_to_bytes s.sunset_time .Sunset
          ++ (NightlightSettings.naive_time_to_bytes s.sunrise_time .Sunrise
          ++ STRUCT_FOOTER_BYTES))))) with
      | nil =>
        exfalso
        have hlx := congrArg List.length hx
        simp [List.length_append] at hlx
      | cons x xs => exact ⟨x, xs, rfl⟩
    have hfc3 : d.drop 25 = 0xCA :: (0x14 :: (c0 :: r2)) := by
      rw [hfpre, hcase]
      rfl
    have hg1 : d.drop (25 + (NightlightSettings.naive_time_to_bytes s.start_time .ScheduleStart).length)
        = (NightlightSettings.naive_time_to_bytes s.end_time .ScheduleEnd
          ++ (COLOR_TEMPERATURE_PREFIX_BYTES
          ++ (kelvin_to_bytes s.color_temperature
          ++ (NightlightSettings.naive_time_to_bytes s.sunset_time .Sunset
          ++ (NightlightSettings.naive_time_to_bytes s.sunrise_time .Sunrise
          ++ STRUCT_FOOTER_BYTES))))) :=
      drop_advance d 25 _ _ _ hftb rfl
    have hg2 : d.drop (25 + (NightlightSettings.naive_time_to_bytes s.start_time .ScheduleStart).length
          + (NightlightSettings.naive_time_to_bytes s.end_time .ScheduleEnd).length)
        = COLOR_TEMPERATURE_PREFIX_BYTES
          ++ (kelvin_to_bytes s.color_temperature
          ++ (NightlightSettings.naive_time_to_bytes s.sunset_time .Sunset
          ++ (NightlightSettings.naive_time_to_bytes s.sunrise_time .Sunrise
          ++ STRUCT_FOOTER_BYTES))) :=
      drop_advance d _ _ _ _ hg1 rfl
    have hg3 : d.drop (25 + (NightlightSettings.naive_time_to_bytes s.start_time .ScheduleStart).length
          + (NightlightSettings.naive_time_to_bytes s.end_time .ScheduleEnd).length + 2)
        = kelvin_to_bytes s.color_temperature
          ++ (NightlightSettings.naive_time_to_bytes s.sunset_time .Sunset
          ++ (NightlightSettings.naive_time_to_bytes s.sunrise_time .Sunrise
          ++ STRUCT_FOOTER_BYTES)) :=
      drop_advance d _ 2 _ _ hg2 rfl
    have hg4 : d.drop (25 + (NightlightSettings.naive_time_to_bytes s.start_time .ScheduleStart).length
          + (NightlightSettings.naive_time_to_bytes s.end_time .ScheduleEnd).length + 2 + 2)
        = NightlightSettings.naive_time_to_bytes s.sunset_time .Sunset
          ++ (NightlightSettings.naive_time_to_bytes s.sunrise_time .Sunrise
          ++ STRUCT_FOOTER_BYTES) :=
      drop_advance d _ 2 _ _ hg3 rfl
    have hg5 : d.drop (25 + (NightlightSettings.naive_time_to_bytes s.start_time .ScheduleStart).length
          + (NightlightSettings.naive_time_to_bytes s.end_time .ScheduleEnd).length + 2 + 2
          + (NightlightSettings.naive_time_to_bytes s.sunset_time .Sunset).length)
        = NightlightSettings.naive_time_to_bytes s.sunrise_time .Sunrise
          ++ STRUCT_FOOTER_BYTES :=
      drop_advance d _ _ _ _ hg4 rfl
    have hfoot : d.drop (25 + (NightlightSettings.naive_time_to_bytes s.start_time .ScheduleStart).length
          + (NightlightSettings.naive_time_to_bytes s.end_time .ScheduleEnd).length + 2 + 2
          + (NightlightSettings.naive_time_to_bytes s.sunset_time .Sunset).length
          + (NightlightSettings.naive_time_to_bytes s.sunrise_time .Sunrise).length)
        = STRUCT_FOOTER_BYTES ++ [] := by
      have step := drop_advance d _ _ _ _ hg5 rfl
      simpa using step
    unfold NightlightSettings.deserialize_from_bytes
    simp only [settings_header_block_drop d 0 _ ha (by omega),
      settings_ts_block_drop d 4 s.timestamp _ hb (by omega),
      timestamp_roundtrip s.timestamp hts,
      readByte_drop d 18 _ _ hc,
      hsz,
      settings_header_block_drop d 19 _ he' (by omega),
      sched_enabled_present_drop d 23 _ hf,
      set_hours_absent_drop d 25 0xCA 0x14 c0 _ hfc3 (Or.inl (by norm_num)),
      time_type_block_drop d 25 s.start_time .ScheduleStart _ hs1 hs2 hftb,
      time_type_block_drop d _ s.end_time .ScheduleEnd _ he1 he2 hg1,
      color_block_drop d _ s.color_temperature _ hg2,
      kelvin_roundtrip s.color_temperature hct,
      time_type_block_drop d _ s.sunset_time .Sunset _ hu1 hu2 hg4,
      time_type_block_drop d _ s.sunrise_time .Sunrise _ hr1 hr2 hg5,
      settings_footer_block_drop d _ _ hfoot (by omega),
      time_to_naive_time_id s.start_time hs1 hs2 hs3,
      time_to_naive_time_id s.end_time he1 he2 he3,
      time_to_naive_time_id s.sunset_time hu1 hu2 hu3,
      time_to_naive_time_id s.sunrise_time hr1 hr2 hr3,
      ebind_ok, ebind_pure, Nat.reduceAdd, STRUCT_FOOTER_BYTES_length,
      Bool.false_eq_true, ite_false, ite_true, eq_self_iff_true,
      if_neg (show ¬ (d.length ≠ s.remaining_struct_bytes.length + 1 + 18 + 4) by omega),
      if_neg (show ¬ (25 + (NightlightSettings.naive_time_to_bytes s.start_time .ScheduleStart).length
        + (NightlightSettings.naive_time_to_bytes s.end_time .ScheduleEnd).length + 2 + 2
        + (NightlightSettings.naive_time_to_bytes s.sunset_time .Sunset).length
        + (NightlightSettings.naive_time_to_bytes s.sunrise_time .Sunrise).length + 4
          ≠ d.length) by omega)]
    rw [← hmode]
    rfl
  · -- SetHours
    have he' : d.drop 19 = STRUCT_HEADER_BYTES
        ++ (SCHEDULE_ENABLED_BYTES
        ++ (SCHEDULE_MODE_SET_HOURS_ENABLED_BYTES
        ++ (NightlightSettings.naive_time_to_bytes s.start_time .ScheduleStart
        ++ (NightlightSettings.naive_time_to_bytes s.end_time .ScheduleEnd
          ++ (COLOR_TEMPERATURE_PREFIX_BYTES
          ++ (kelvin_to_bytes s.color_temperature
          ++ (NightlightSettings.naive_time_to_bytes s.sunset_time .Sunset
          ++ (NightlightSettings.naive_time_to_bytes s.sunrise_time .Sunrise
          ++ STRUCT_FOOTER_BYTES)))))))) := by
      rw [he, settings_inner_shape_sh s hmode]
      simp [List.append_assoc]
    have hil : s.remaining_struct_bytes.length
        = 4 + (2 + (3 + ((NightlightSettings.naive_time_to_bytes s.start_time .ScheduleStart).length
          + ((NightlightSettings.naive_time_to_bytes s.end_time .ScheduleEnd).length
          + (2 + (2 + ((NightlightSettings.naive_time_to_bytes s.sunset_time .Sunset).length
          + (NightlightSettings.naive_time_to_bytes s.sunrise_time .Sunrise).length))))))) := by
      rw [settings_inner_shape_sh s hmode]
      simp [List.length_append, show (kelvin_to_bytes s.color_temperature).length = 2 from rfl]
    have hf : d.drop 23 = SCHEDULE_ENABLED_BYTES
        ++ (SCHEDULE_MODE_SET_HOURS_ENABLED_BYTES
        ++ (NightlightSettings.naive_time_to_bytes s.start_time .ScheduleStart
        ++ (NightlightSettings.naive_time_to_bytes s.end_time .ScheduleEnd
          ++ (COLOR_TEMPERATURE_PREFIX_BYTES
          ++ (kelvin_to_bytes s.color_temperature
          ++ (NightlightSettings.naive_time_to_bytes s.sunset_time .Sunset
          ++ (NightlightSettings.naive_time_to_bytes s.sunrise_time .Sunrise
          ++ STRUCT_FOOTER_BYTES))))))) :=
      drop_advance d 19 4 _ _ he' rfl
    have hg0 : d.drop 25 = SCHEDULE_MODE_SET_HOURS_ENABLED_BYTES
        ++ (NightlightSettings.naive_time_to_bytes s.start_time .ScheduleStart
        ++ (NightlightSettings.naive_time_to_bytes s.end_time .ScheduleEnd
          ++ (COLOR_TEMPERATURE_PREFIX_BYTES
          ++ (kelvin_to_bytes s.color_temperature
          ++ (NightlightSettings.naive_time_to_bytes s.sunset_time .Sunset
          ++ (NightlightSettings.naive_time_to_bytes s.sunrise_time .Sunrise
          ++ STRUCT_FOOTER_BYTES)))))) :=
      drop_advance d 23 2 _ _ hf rfl
    have hftb : d.drop 28 = NightlightSettings.naive_time_to_bytes s.start_time .ScheduleStart
        ++ (NightlightSettings.naive_time_to_bytes s.end_time .ScheduleEnd
          ++ (COLOR_TEMPERATURE_PREFIX_BYTES
          ++ (kelvin_to_bytes s.color_temperature
          ++ (NightlightSettings.naive_time_to_bytes s.sunset_time .Sunset
          ++ (NightlightSettings.naive_time_to_bytes s.sunrise_time .Sunrise
          ++ STRUCT_FOOTER_BYTES))))) :=
      drop_advance d 25 3 _ _ hg0 rfl
    have hg1 : d.drop (28 + (NightlightSettings.naive_time_to_bytes s.start_time .ScheduleStart).length)
        = (NightlightSettings.naive_time_to_bytes s.end_time .ScheduleEnd
          ++ (COLOR_TEMPERATURE_PREFIX_BYTES
          ++ (kelvin_to_bytes s.color_temperature
          ++ (NightlightSettings.naive_time_to_bytes s.sunset_time .Sunset
          ++ (NightlightSettings.naive_time_to_bytes s.sunrise_time .Sunrise
          ++ STRUCT_FOOTER_BYTES))))) :=
      drop_advance d 28 _ _ _ hftb rfl
    have hg2 : d.drop (28 + (NightlightSettings.naive_time_to_bytes s.start_time .ScheduleStart).length
          + (NightlightSettings.naive_time_to_bytes s.end_time .ScheduleEnd).length)
        = COLOR_TEMPERATURE_PREFIX_BYTES
          ++ (kelvin_to_bytes s.color_temperature
          ++ (NightlightSettings.naive_time_to_bytes s.sunset_time .Sunset
          ++ (NightlightSettings.naive_time_to_bytes s.sunrise_time .Sunrise
          ++ STRUCT_FOOTER_BYTES))) :=
      drop_advance d _ _ _ _ hg1 rfl
    have hg3 : d.drop (28 + (NightlightSettings.naive_time_to_bytes s.start_time .ScheduleStart).length
          + (NightlightSettings.naive_time_to_bytes s.end_time .ScheduleEnd).length + 2)
        = kelvin_to_bytes s.color_temperature
          ++ (NightlightSettings.naive_time_to_bytes s.sunset_time .Sunset
          ++ (NightlightSettings.naive_time_to_bytes s.sunrise_time .Sunrise
          ++ STRUCT_FOOTER_BYTES)) :=
      drop_advance d _ 2 _ _ hg2 rfl
    have hg4 : d.drop (28 + (NightlightSettings.naive_time_to_bytes s.start_time .ScheduleStart).length
          + (NightlightSettings.naive_time_to_bytes s.end_time .ScheduleEnd).length + 2 + 2)
        = NightlightSettings.naive_time_to_bytes s.sunset_time .Sunset
          ++ (NightlightSettings.naive_time_to_bytes s.sunrise_time .Sunrise
          ++ STRUCT_FOOTER_BYTES) :=
      drop_advance d _ 2 _ _ hg3 rfl
    have hg5 : d.drop (28 + (NightlightSettings.naive_time_to_bytes s.start_time .ScheduleStart).length
          + (NightlightSettings.naive_time_to_bytes s.end_time .ScheduleEnd).length + 2 + 2
          + (NightlightSettings.naive_time_to_bytes s.sunset_time .Sunset).length)
        = NightlightSettings.naive_time_to_bytes s.sunrise_time .Sunrise
          ++ STRUCT_FOOTER_BYTES :=
      drop_advance d _ _ _ _ hg4 rfl
    have hfoot : d.drop (28 + (NightlightSettings.naive_time_to_bytes s.start_time .ScheduleStart).length
          + (NightlightSettings.naive_time_to_bytes s.end_time .ScheduleEnd).length + 2 + 2
          + (NightlightSettings.naive_time_to_bytes s.sunset_time .Sunset).length
          + (NightlightSettings.naive_time_to_bytes s.sunrise_time .Sunrise).length)
        = STRUCT_FOOTER_BYTES ++ [] := by
      have step := drop_advance d _ _ _ _ hg5 rfl
      simpa using step
    unfold NightlightSettings.deserialize_from_bytes
    simp only [settings_header_block_drop d 0 _ ha (by omega),
      settings_ts_block_drop d 4 s.timestamp _ hb (by omega),
      timestamp_roundtrip s.timestamp hts,
      readByte_drop d 18 _ _ hc,
      hsz,
      settings_header_block_drop d 19 _ he' (by omega),
      sched_enabled_present_drop d 23 _ hf,
      set_hours_present_drop d 25 _ hg0,
      time_type_block_drop d 28 s.start_time .ScheduleStart _ hs1 hs2 hftb,
      time_type_block_drop d _ s.end_time .ScheduleEnd _ he1 he2 hg1,
      color_block_drop d _ s.color_temperature _ hg2,
      kelvin_roundtrip s.color_temperature hct,
      time_type_block_drop d _ s.sunset_time .Sunset _ hu1 hu2 hg4,
      time_type_block_drop d _ s.sunrise_time .Sunrise _ hr1 hr2 hg5,
      settings_footer_block_drop d _ _ hfoot (by omega),
      time_to_naive_time_id s.start_time hs1 hs2 hs3,
      time_to_naive_time_id s.end_time he1 he2 he3,
      time_to_naive_time_id s.sunset_time hu1 hu2 hu3,
      time_to_naive_time_id s.sunrise_time hr1 hr2 hr3,
      ebind_ok, ebind_pure, Nat.reduceAdd, STRUCT_FOOTER_BYTES_length,
      ite_true, eq_self_iff_true,
      if_neg (show ¬ (d.length ≠ s.remaining_struct_bytes.length + 1 + 18 + 4) by omega),
      if_neg (show ¬ (28 + (NightlightSettings.naive_time_to_bytes s.start_time .ScheduleStart).length
        + (NightlightSettings.naive_time_to_bytes s.end_time .ScheduleEnd).length + 2 + 2
        + (NightlightSettings.naive_time_to_bytes s.sunset_time .Sunset).length
        + (NightlightSettings.naive_time_to_bytes s.sunrise_time .Sunrise).length + 4
          ≠ d.length) by omega)]
    rw [← hmode]
    rfl

/-! ### Length-byte facts and rejection paths -/

theorem getD_of_drop (data : Bytes) (pos : Nat) (b : Byte) (rest : Bytes)
    (h : data.drop pos = b :: rest) : data.getD pos 0 = b := by
  have hpos : pos < data.length := by
    by_contra hc
    push_neg at hc
    rw [List.drop_eq_nil_of_le hc] at h
    exact List.noConfusion h
  have hd := List.drop_eq_getElem_cons hpos
  rw [hd] at h
  have hb : data[pos] = b := by injection h
  rw [List.getD_eq_getElem _ _ hpos, hb]

theorem ebind_err {α β : Type} (e : RunError) (f : α → PResult β) :
    (Except.error e : PResult α) >>= f = Except.error e := rfl

theorem state_length_byte (st : NightlightState) :
    st.serialize_to_bytes.getD 18 0
      = (st.remaining_struct_bytes.length % 256 + 1) % 256 := by
  obtain ⟨d, hd⟩ : ∃ d, d = st.serialize_to_bytes := ⟨_, rfl⟩
  rw [← hd]
  rw [state_serialize_shape] at hd
  have ha : d.drop 0 = STRUCT_HEADER_BYTES
      ++ (TIMESTAMP_HEADER_BYTES ++ (TIMESTAMP_PREFIX_BYTES
        ++ (timestamp_to_bytes st.timestamp ++ (TIMESTAMP_SUFFIX_BYTES
          ++ (((st.remaining_struct_bytes.length % 256 + 1) % 256)
            :: (st.remaining_struct_bytes ++ STRUCT_FOOTER_BYTES)))))) := by
    rw [List.drop_zero, hd]
  have hb := drop_advance d 0 4 _ _ ha rfl
  have hb1 := drop_advance d (0 + 4) 4 _ _ hb rfl
  have hb2 := drop_advance d (0 + 4 + 4) 2 _ _ hb1 rfl
  have hb3 := drop_advance d (0 + 4 + 4 + 2) 5 _ _ hb2 rfl
  have hc : d.drop 18
      = (((st.remaining_struct_bytes.length % 256 + 1) % 256)
        :: (st.remaining_struct_bytes ++ STRUCT_FOOTER_BYTES)) :=
    drop_advance d (0 + 4 + 4 + 2 + 5) 3 _ _ hb3 rfl
  exact getD_of_drop d 18 _ _ hc

theorem settings_length_byte (s : NightlightSettings) :
    s.serialize_to_bytes.getD 18 0
      = (s.remaining_struct_bytes.length % 256 + 1) % 256 := by
  obtain ⟨d, hd⟩ : ∃ d, d = s.serialize_to_bytes := ⟨_, rfl⟩
  rw [← hd]
  rw [settings_serialize_shape] at hd
  have ha : d.drop 0 = STRUCT_HEADER_BYTES
      ++ (TIMESTAMP_HEADER_BYTES ++ (TIMESTAMP_PREFIX_BYTES
        ++ (timestamp_to_bytes s.timestamp ++ (TIMESTAMP_SUFFIX_BYTES
          ++ (((s.remaining_struct_bytes.length % 256 + 1) % 256)
            :: (s.remaining_struct_bytes ++ STRUCT_FOOTER_BYTES)))))) := by
    rw [List.drop_zero, hd]
  have hb := drop_advance d 0 4 _ _ ha rfl
  have hb1 := drop_advance d (0 + 4) 4 _ _ hb rfl
  have hb2 := drop_advance d (0 + 4 + 4) 2 _ _ hb1 rfl
  have hb3 := drop_advance d (0 + 4 + 4 + 2) 5 _ _ hb2 rfl
  have hc : d.drop 18
      = (((s.remaining_struct_bytes.length % 256 + 1) % 256)
        :: (s.remaining_struct_bytes ++ STRUCT_FOOTER_BYTES)) :=
    drop_advance d (0 + 4 + 4 + 2 + 5) 3 _ _ hb3 rfl
  exact getD_of_drop d 18 _ _ hc

theorem state_inner_length (st : NightlightState) :
    st.remaining_struct_bytes.length
      = 4 + (if st.is_enabled then 2 else 0) + st.remaining_data.length := by
  cases hen : st.is_enabled
  · rw [state_inner_shape_false st hen]
    simp [List.length_append]
  · rw [state_inner_shape_true st hen]
    simp [List.length_append]
    omega

theorem front_mismatch_reject (t sz : Nat) (rest : Bytes)
    (hne : 19 + rest.length ≠ sz + 22) :
    NightlightSettings.deserialize_from_bytes
        (STRUCT_HEADER_BYTES ++ (TIMESTAMP_HEADER_BYTES ++ (TIMESTAMP_PREFIX_BYTES
          ++ (timestamp_to_bytes t ++ (TIMESTAMP_SUFFIX_BYTES ++ (sz :: rest))))))
      = .error (.err .StructEnd)
    ∧ NightlightState.deserialize_from_bytes
        (STRUCT_HEADER_BYTES ++ (TIMESTAMP_HEADER_BYTES ++ (TIMESTAMP_PREFIX_BYTES
          ++ (timestamp_to_bytes t ++ (TIMESTAMP_SUFFIX_BYTES ++ (sz :: rest))))))
      = .error (.err .StructEnd) := by
  obtain ⟨d, hd⟩ : ∃ d, d = STRUCT_HEADER_BYTES ++ (TIMESTAMP_HEADER_BYTES
      ++ (TIMESTAMP_PREFIX_BYTES ++ (timestamp_to_bytes t
        ++ (TIMESTAMP_SUFFIX_BYTES ++ (sz :: rest))))) := ⟨_, rfl⟩
  rw [← hd]
  have hdlen : d.length = 19 + rest.length := by
    rw [hd]
    simp [List.length_append]
    omega
  have ha : d.drop 0 = STRUCT_HEADER_BYTES ++ (TIMESTAMP_HEADER_BYTES
      ++ (TIMESTAMP_PREFIX_BYTES ++ (timestamp_to_bytes t
        ++ (TIMESTAMP_SUFFIX_BYTES ++ (sz :: rest))))) := by
    rw [List.drop_zero, hd]
  have hb : d.drop 4 = TIMESTAMP_HEADER_BYTES
      ++ (TIMESTAMP_PREFIX_BYTES ++ (timestamp_to_bytes t
        ++ (TIMESTAMP_SUFFIX_BYTES ++ (sz :: rest)))) :=
    drop_advance d 0 4 _ _ ha rfl
  have hb1 := drop_advance d 4 4 _ _ hb rfl
  have hb2 := drop_advance d (4 + 4) 2 _ _ hb1 rfl
  have hb3 := drop_advance d (4 + 4 + 2) 5 _ _ hb2 rfl
  have hc : d.drop 18 = sz :: rest :=
    drop_advance d (4 + 4 + 2 + 5) 3 _ _ hb3 rfl
  constructor
  · unfold NightlightSettings.deserialize_from_bytes
    simp only [settings_header_block_drop d 0 _ ha (by omega),
      settings_ts_block_drop d 4 t _ hb (by omega),
      readByte_drop d 18 _ _ hc,
      ebind_ok, ebind_pure, Nat.reduceAdd, STRUCT_FOOTER_BYTES_length,
      if_pos (show d.length ≠ sz + 18 + 4 by omega)]
  · unfold NightlightState.deserialize_from_bytes
    simp only [state_header_block_drop d 0 _ ha (by omega),
      ts_block_drop d 4 t _ hb (by omega),
      readByte_drop d 18 _ _ hc,
      ebind_ok, ebind_pure, Nat.reduceAdd, STRUCT_FOOTER_BYTES_length,
      if_pos (show d.length ≠ sz + 18 + 4 by omega)]

theorem state_big_inner_reject (st : NightlightState)
    (hbig : 255 ≤ st.remaining_struct_bytes.length) :
    NightlightState.deserialize_from_bytes st.serialize_to_bytes
      = .error (.err .StructEnd) := by
  obtain ⟨d, hd⟩ : ∃ d, d = st.serialize_to_bytes := ⟨_, rfl⟩
  rw [← hd]
  rw [state_serialize_shape] at hd
  have hdlen : d.length = 23 + st.remaining_struct_bytes.length := by
    rw [hd]
    simp [List.length_append]
    omega
  have ha : d.drop 0 = STRUCT_HEADER_BYTES
      ++ (TIMESTAMP_HEADER_BYTES ++ (TIMESTAMP_PREFIX_BYTES
        ++ (timestamp_to_bytes st.timestamp ++ (TIMESTAMP_SUFFIX_BYTES
          ++ (((st.remaining_struct_bytes.length % 256 + 1) % 256)
            :: (st.remaining_struct_bytes ++ STRUCT_FOOTER_BYTES)))))) := by
    rw [List.drop_zero, hd]
  have hb : d.drop 4 = TIMESTAMP_HEADER_BYTES ++ (TIMESTAMP_PREFIX_BYTES
      ++ (timestamp_to_bytes st.timestamp ++ (TIMESTAMP_SUFFIX_BYTES
        ++ (((st.remaining_struct_bytes.length % 256 + 1) % 256)
          :: (st.remaining_struct_bytes ++ STRUCT_FOOTER_BYTES))))) :=
    drop_advance d 0 4 _ _ ha rfl
  have hb1 := drop_advance d 4 4 _ _ hb rfl
  have hb2 := drop_advance d (4 + 4) 2 _ _ hb1 rfl
  have hb3 := drop_advance d (4 + 4 + 2) 5 _ _ hb2 rfl
  have hc : d.drop 18
      = (((st.remaining_struct_bytes.length % 256 + 1) % 256)
        :: (st.remaining_struct_bytes ++ STRUCT_FOOTER_BYTES)) :=
    drop_advance d (4 + 4 + 2 + 5) 3 _ _ hb3 rfl
  unfold NightlightState.deserialize_from_bytes
  simp only [state_header_block_drop d 0 _ ha (by omega),
    ts_block_drop d 4 st.timestamp _ hb (by omega),
    readByte_drop d 18 _ _ hc,
    ebind_ok, ebind_pure, Nat.reduceAdd, STRUCT_FOOTER_BYTES_length,
    if_pos (show d.length
      ≠ (st.remaining_struct_bytes.length % 256 + 1) % 256 + 18 + 4 by omega)]

/-! ### Claim C1: decode ∘ encode round trip -/

/-- Claim C1 counterexample: a State record that is disabled but whose opaque
payload begins with the enabled-marker bytes `0x10 0x00` does not round-trip:
decoding its serialization yields the enabled record with an empty payload. -/
theorem claim_c1_counterexample :
    NightlightState.deserialize_from_bytes
        (NightlightState.serialize_to_bytes ⟨0, false, [0x10, 0x00]⟩)
      = .ok ⟨0, true, []⟩
    ∧ NightlightState.deserialize_from_bytes
        (NightlightState.serialize_to_bytes ⟨0, false, [0x10, 0x00]⟩)
      ≠ .ok ⟨0, false, [0x10, 0x00]⟩ := by
  constructor
  · decide
  · decide

/-- Claim C1 (amended): `decode (encode r) = r` holds for every Settings record
whose four times are valid (hour < 24, minute < 60, no seconds) and whose
timestamp and color temperature fit the encodable ranges (`< 2^36` and
`< 2^14`), and for every State record whose timestamp fits `2^36`, whose inner
body stays one byte short of the `u8` length limit, and which, when disabled,
has a payload that does not begin with the enabled-marker bytes (taking the
footer into account). -/
theorem claim_c1_roundtrip_amended :
    (∀ s : NightlightSettings,
      s.timestamp < 2 ^ 36 → s.color_temperature < 2 ^ 14 →
      s.start_time.hour < 24 → s.start_time.minute < 60 → s.start_time.second = 0 →
      s.end_time.hour < 24 → s.end_time.minute < 60 → s.end_time.second = 0 →
      s.sunset_time.hour < 24 → s.sunset_time.minute < 60 → s.sunset_time.second = 0 →
      s.sunrise_time.hour < 24 → s.sunrise_time.minute < 60 → s.sunrise_time.second = 0 →
      NightlightSettings.deserialize_from_bytes s.serialize_to_bytes = .ok s)
    ∧ (∀ st : NightlightState,
      st.timestamp < 2 ^ 36 →
      st.remaining_struct_bytes.length + 1 ≤ 255 →
      (st.is_enabled = true
        ∨ (st.remaining_data ++ STRUCT_FOOTER_BYTES).take 2 ≠ [0x10, 0x00]) →
      NightlightState.deserialize_from_bytes st.serialize_to_bytes = .ok st) := by
  constructor
  · intro s hts hct hs1 hs2 hs3 he1 he2 he3 hu1 hu2 hu3 hr1 hr2 hr3
    exact settings_roundtrip s hts hct hs1 hs2 hs3 he1 he2 he3 hu1 hu2 hu3 hr1 hr2 hr3
  · intro st hts hinner hmark
    cases st with
    | mk ts en pl =>
      cases en
      · rcases hmark with hmark | hmark
        · exact absurd hmark (by simp)
        · exact state_roundtrip_false ts pl hts hinner hmark
      · exact state_roundtrip_true ts pl hts hinner

/-- Witness for C1 (amended) at the repository's own Settings and State test
records. -/
theorem claim_c1_witness :
    NightlightSettings.deserialize_from_bytes
        (NightlightSettings.serialize_to_bytes
          { timestamp := 1742540908, schedule_mode := .SetHours, color_temperature := 2790,
            start_time := ⟨1, 15, 0⟩, end_time := ⟨0, 0, 0⟩,
            sunset_time := ⟨19, 23, 0⟩, sunrise_time := ⟨7, 12, 0⟩ })
      = .ok { timestamp := 1742540908, schedule_mode := .SetHours, color_temperature := 2790,
              start_time := ⟨1, 15, 0⟩, end_time := ⟨0, 0, 0⟩,
              sunset_time := ⟨19, 23, 0⟩, sunrise_time := ⟨7, 12, 0⟩ }
    ∧ NightlightState.deserialize_from_bytes
        (NightlightState.serialize_to_bytes
          ⟨1742670473, true, [0xD0, 0x0A, 0x02, 0xC6, 0x14, 0xA9, 0xF6, 0xE2, 0xD3, 0xEF,
            0xEA, 0xE7, 0xED, 0x01]⟩)
      = .ok ⟨1742670473, true, [0xD0, 0x0A, 0x02, 0xC6, 0x14, 0xA9, 0xF6, 0xE2, 0xD3, 0xEF,
            0xEA, 0xE7, 0xED, 0x01]⟩ :=
  ⟨claim_c1_roundtrip_amended.1 _ (by norm_num) (by norm_num) (by norm_num) (by norm_num)
      rfl (by norm_num) (by norm_num) rfl (by norm_num) (by norm_num) rfl (by norm_num)
      (by norm_num) rfl,
    claim_c1_roundtrip_amended.2 _ (by norm_num) (by decide) (Or.inl rfl)⟩

/-! ### Claim C3: the remaining-length byte -/

/-- Claim C3 counterexample: on the repository's own 60-byte Settings encoding
the remaining-length byte (0x26 = 38) does not equal the byte count from the
inner header through just before the footer (60 − 19 − 4 = 37); it exceeds it
by one. -/
theorem claim_c3_counterexample :
    ¬ ((NightlightSettings.serialize_to_bytes
          { timestamp := 1742540908, schedule_mode := .SetHours, color_temperature := 2790,
            start_time := ⟨1, 15, 0⟩, end_time := ⟨0, 0, 0⟩,
            sunset_time := ⟨19, 23, 0⟩, sunrise_time := ⟨7, 12, 0⟩ }).getD 18 0
        = (NightlightSettings.serialize_to_bytes
          { timestamp := 1742540908, schedule_mode := .SetHours, color_temperature := 2790,
            start_time := ⟨1, 15, 0⟩, end_time := ⟨0, 0, 0⟩,
            sunset_time := ⟨19, 23, 0⟩, sunrise_time := ⟨7, 12, 0⟩ }).length - 19 - 4) := by
  decide

/-- Claim C3 (amended): in every encoded record of either kind (for State,
provided the inner body stays within the `u8` length limit), the
remaining-length byte equals the byte count from the inner header through just
before the footer **plus one** (it also counts the length byte itself); and
whenever the length byte of a buffer with a well-formed front does not equal
that count for the supplied buffer, both decoders fail with the
corrupt-record (`StructEnd`) error. -/
theorem claim_c3_length_byte_amended :
    (∀ s : NightlightSettings,
      s.serialize_to_bytes.getD 18 0 = (s.serialize_to_bytes.length - 19 - 4) + 1)
    ∧ (∀ st : NightlightState,
      st.remaining_struct_bytes.length + 1 ≤ 255 →
      st.serialize_to_bytes.getD 18 0 = (st.serialize_to_bytes.length - 19 - 4) + 1)
    ∧ (∀ (t sz : Nat) (rest : Bytes),
      19 + rest.length ≠ sz + 22 →
      NightlightSettings.deserialize_from_bytes
          (STRUCT_HEADER_BYTES ++ (TIMESTAMP_HEADER_BYTES ++ (TIMESTAMP_PREFIX_BYTES
            ++ (timestamp_to_bytes t ++ (TIMESTAMP_SUFFIX_BYTES ++ (sz :: rest))))))
        = .error (.err .StructEnd)
      ∧ NightlightState.deserialize_from_bytes
          (STRUCT_HEADER_BYTES ++ (TIMESTAMP_HEADER_BYTES ++ (TIMESTAMP_PREFIX_BYTES
            ++ (timestamp_to_bytes t ++ (TIMESTAMP_SUFFIX_BYTES ++ (sz :: rest))))))
        = .error (.err .StructEnd)) := by
  refine ⟨?_, ?_, ?_⟩
  · intro s
    have hb := settings_length_byte s
    have hl := settings_serialize_length s
    have hle := settings_inner_le s
    rw [hb, hl]
    omega
  · intro st hinner
    have hb := state_length_byte st
    have hl := state_serialize_length st
    rw [hb, hl]
    omega
  · intro t sz rest hne
    exact front_mismatch_reject t sz rest hne

/-- Witness for C3 (amended): the State bound and the mismatch branch at
concrete inputs. -/
theorem claim_c3_witness :
    ((NightlightState.mk 7 true [1, 2, 3]).remaining_struct_bytes.length + 1 ≤ 255
      ∧ (NightlightState.mk 7 true [1, 2, 3]).serialize_to_bytes.getD 18 0
        = ((NightlightState.mk 7 true [1, 2, 3]).serialize_to_bytes.length - 19 - 4) + 1)
    ∧ (19 + ([] : Bytes).length ≠ 99 + 22
      ∧ NightlightSettings.deserialize_from_bytes
          (STRUCT_HEADER_BYTES ++ (TIMESTAMP_HEADER_BYTES ++ (TIMESTAMP_PREFIX_BYTES
            ++ (timestamp_to_bytes 5 ++ (TIMESTAMP_SUFFIX_BYTES ++ (99 :: ([] : Bytes)))))))
        = .error (.err .StructEnd)) :=
  ⟨⟨by decide, claim_c3_length_byte_amended.2.1 (NightlightState.mk 7 true [1, 2, 3]) (by decide)⟩,
    ⟨by decide, (claim_c3_length_byte_amended.2.2 5 99 [] (by decide)).1⟩⟩

/-! ### Claims C6–C9: time blocks and mutators -/

/-- Claim C6: for every hour < 24 and minute < 60 and every time-block type,
the encoder emits the hour tag `0x0E` iff the hour is positive and the minute
tag `0x2E` iff the minute is positive, always ends the block with the terminal
byte `0x00`, and the block decoder returns exactly the same pair, consuming
the whole block. -/
theorem claim_c6_time_block (tt : TimeBlockType) (h m : Nat)
    (hh : h < 24) (hm : m < 60) :
    NightlightSettings.naive_time_to_bytes ⟨h, m, 0⟩ tt
      = tt.get_prefix_identifier
        ++ ((if 0 < h then [TIME_BLOCK_HOUR_IDENTIFIER_PREFIX_BYTE, h] else [])
          ++ ((if 0 < m then [TIME_BLOCK_MINUTE_IDENTIFIER_PREFIX_BYTE, m] else [])
            ++ [TIME_BLOCK_TERMINAL_BYTE]))
    ∧ (NightlightSettings.naive_time_to_bytes ⟨h, m, 0⟩ tt).getLast?
      = some TIME_BLOCK_TERMINAL_BYTE
    ∧ NightlightSettings.parse_time_type_block
        (NightlightSettings.naive_time_to_bytes ⟨h, m, 0⟩ tt) 0 tt
      = .ok (h, m, (NightlightSettings.naive_time_to_bytes ⟨h, m, 0⟩ tt).length) := by
  have hsh := naive_time_to_bytes_eq ⟨h, m, 0⟩ tt hh hm
  refine ⟨hsh, ?_, ?_⟩
  · rw [hsh]
    rw [show tt.get_prefix_identifier
        ++ ((if NaiveTime.hour ⟨h, m, 0⟩ > 0
              then [TIME_BLOCK_HOUR_IDENTIFIER_PREFIX_BYTE, NaiveTime.hour ⟨h, m, 0⟩] else [])
          ++ ((if NaiveTime.minute ⟨h, m, 0⟩ > 0
              then [TIME_BLOCK_MINUTE_IDENTIFIER_PREFIX_BYTE, NaiveTime.minute ⟨h, m, 0⟩] else [])
            ++ [TIME_BLOCK_TERMINAL_BYTE]))
      = (tt.get_prefix_identifier
        ++ (if NaiveTime.hour ⟨h, m, 0⟩ > 0
              then [TIME_BLOCK_HOUR_IDENTIFIER_PREFIX_BYTE, NaiveTime.hour ⟨h, m, 0⟩] else [])
        ++ (if NaiveTime.minute ⟨h, m, 0⟩ > 0
              then [TIME_BLOCK_MINUTE_IDENTIFIER_PREFIX_BYTE, NaiveTime.minute ⟨h, m, 0⟩] else []))
        ++ [TIME_BLOCK_TERMINAL_BYTE] by simp [List.append_assoc]]
    rw [List.getLast?_concat]
  · have hdrop : (NightlightSettings.naive_time_to_bytes ⟨h, m, 0⟩ tt).drop 0
        = NightlightSettings.naive_time_to_bytes ⟨h, m, 0⟩ tt ++ [] := by
      simp
    have := time_type_block_drop (NightlightSettings.naive_time_to_bytes ⟨h, m, 0⟩ tt) 0
      ⟨h, m, 0⟩ tt [] hh hm hdrop
    simpa using this

/-- Witness for C6 at the boundary values hour = 23, minute = 59. -/
theorem claim_c6_witness :
    (23 < 24 ∧ 59 < 60)
    ∧ (NightlightSettings.naive_time_to_bytes ⟨23, 59, 0⟩ .Sunset
        = TimeBlockType.Sunset.get_prefix_identifier
          ++ ((if 0 < 23 then [TIME_BLOCK_HOUR_IDENTIFIER_PREFIX_BYTE, 23] else [])
            ++ ((if 0 < 59 then [TIME_BLOCK_MINUTE_IDENTIFIER_PREFIX_BYTE, 59] else [])
              ++ [TIME_BLOCK_TERMINAL_BYTE]))
      ∧ (NightlightSettings.naive_time_to_bytes ⟨23, 59, 0⟩ .Sunset).getLast?
        = some TIME_BLOCK_TERMINAL_BYTE
      ∧ NightlightSettings.parse_time_type_block
          (NightlightSettings.naive_time_to_bytes ⟨23, 59, 0⟩ .Sunset) 0 .Sunset
        = .ok (23, 59, (NightlightSettings.naive_time_to_bytes ⟨23, 59, 0⟩ .Sunset).length)) :=
  ⟨by norm_num, claim_c6_time_block .Sunset 23 59 (by norm_num) (by norm_num)⟩

/-- Claim C7 counterexample: when the requested out-of-range temperature equals
the record's current value, the setter returns `Ok` (the equality short-circuit
runs before the range check), so the claim as stated is false. -/
theorem claim_c7_counterexample :
    ¬ (1200 ≤ 100 ∧ 100 ≤ 6500)
    ∧ NightlightSettings.set_color_temperature
        { timestamp := 0, schedule_mode := .Off, color_temperature := 100,
          start_time := ⟨0, 0, 0⟩, end_time := ⟨0, 0, 0⟩,
          sunset_time := ⟨0, 0, 0⟩, sunrise_time := ⟨0, 0, 0⟩ } 0 100
      = (.ok (),
        { timestamp := 0, schedule_mode := .Off, color_temperature := 100,
          start_time := ⟨0, 0, 0⟩, end_time := ⟨0, 0, 0⟩,
          sunset_time := ⟨0, 0, 0⟩, sunrise_time := ⟨0, 0, 0⟩ }) := by
  constructor
  · decide
  · decide

/-- Claim C7 (amended): for every record and every requested color temperature
outside 1200–6500 that differs from the record's current value,
`set_color_temperature` returns `InvalidColorTemperature` and leaves the
record (including `color_temperature` and `timestamp`) unchanged. -/
theorem claim_c7_amended (s : NightlightSettings) (now ct : Nat)
    (hrange : ¬ (1200 ≤ ct ∧ ct ≤ 6500)) (hne : s.color_temperature ≠ ct) :
    s.set_color_temperature now ct = (.error (.InvalidColorTemperature ct), s) := by
  unfold NightlightSettings.set_color_temperature
  rw [if_neg hne, if_pos hrange]

/-- Witness for C7 (amended). -/
theorem claim_c7_witness :
    (¬ (1200 ≤ 9999 ∧ 9999 ≤ 6500) ∧ (2790 : Nat) ≠ 9999)
    ∧ NightlightSettings.set_color_temperature
        { timestamp := 3, schedule_mode := .Off, color_temperature := 2790,
          start_time := ⟨0, 0, 0⟩, end_time := ⟨0, 0, 0⟩,
          sunset_time := ⟨0, 0, 0⟩, sunrise_time := ⟨0, 0, 0⟩ } 5 9999
      = (.error (.InvalidColorTemperature 9999),
        { timestamp := 3, schedule_mode := .Off, color_temperature := 2790,
          start_time := ⟨0, 0, 0⟩, end_time := ⟨0, 0, 0⟩,
          sunset_time := ⟨0, 0, 0⟩, sunrise_time := ⟨0, 0, 0⟩ }) :=
  ⟨⟨by norm_num, by norm_num⟩, claim_c7_amended _ 5 9999 (by norm_num) (by norm_num)⟩

/-- Claim C8: `enable` returns true iff the record was disabled, `disable`
returns true iff it was enabled, and whenever they return false the record
(including the timestamp) is left unchanged. -/
theorem claim_c8_enable_disable (st : NightlightState) (now : Nat) :
    ((st.enable now).1 = true ↔ st.is_enabled = false)
    ∧ ((st.disable now).1 = true ↔ st.is_enabled = true)
    ∧ ((st.enable now).1 = false → (st.enable now).2 = st)
    ∧ ((st.disable now).1 = false → (st.disable now).2 = st) := by
  unfold NightlightState.enable NightlightState.disable
  cases h : st.is_enabled <;> simp [h]

/-- Witness for C8 at a concrete enabled record. -/
theorem claim_c8_witness :
    (((NightlightState.mk 7 true [1]).enable 9).1 = true ↔
      (NightlightState.mk 7 true [1]).is_enabled = false)
    ∧ (((NightlightState.mk 7 true [1]).disable 9).1 = true ↔
      (NightlightState.mk 7 true [1]).is_enabled = true)
    ∧ (((NightlightState.mk 7 true [1]).enable 9).1 = false →
      ((NightlightState.mk 7 true [1]).enable 9).2 = NightlightState.mk 7 true [1])
    ∧ (((NightlightState.mk 7 true [1]).disable 9).1 = false →
      ((NightlightState.mk 7 true [1]).disable 9).2 = NightlightState.mk 7 true [1]) :=
  claim_c8_enable_disable (NightlightState.mk 7 true [1]) 9

/-- Claim C9: the State serializer computes the length byte as the inner body
length plus one reduced modulo 256 (`u8` cast); once the inner body reaches
255 bytes the emitted byte understates the body and the deserializer rejects
the serializer's own output with `StructEnd`; the byte is faithful exactly
when the inner body plus one fits in a `u8`. -/
theorem claim_c9_state_length_overflow (st : NightlightState) :
    st.serialize_to_bytes.getD 18 0
      = ((4 + (if st.is_enabled then 2 else 0) + st.remaining_data.length) + 1) % 256
    ∧ (255 ≤ 4 + (if st.is_enabled then 2 else 0) + st.remaining_data.length →
      NightlightState.deserialize_from_bytes st.serialize_to_bytes
        = .error (.err .StructEnd))
    ∧ (st.serialize_to_bytes.getD 18 0
        = (4 + (if st.is_enabled then 2 else 0) + st.remaining_data.length) + 1
      ↔ (4 + (if st.is_enabled then 2 else 0) + st.remaining_data.length) + 1 ≤ 255) := by
  have hb := state_length_byte st
  have hil := state_inner_length st
  refine ⟨?_, ?_, ?_⟩
  · rw [hb, ← hil]
    omega
  · intro hbig
    exact state_big_inner_reject st (by omega)
  · rw [hb, ← hil]
    constructor
    · intro hfaithful
      omega
    · intro hfit
      omega

/-- Witness for C9 at a State record whose inner body is exactly 255 bytes. -/
theorem claim_c9_witness :
    (255 ≤ 4 + (if (NightlightState.mk 0 true (List.replicate 249 0)).is_enabled then 2 else 0)
      + (NightlightState.mk 0 true (List.replicate 249 0)).remaining_data.length)
    ∧ NightlightState.deserialize_from_bytes
        (NightlightState.mk 0 true (List.replicate 249 0)).serialize_to_bytes
      = .error (.err .StructEnd) := by
  have e1 : (NightlightState.mk 0 true (List.replicate 249 0)).is_enabled = true := rfl
  have e2 : (NightlightState.mk 0 true (List.replicate 249 0)).remaining_data
      = List.replicate 249 0 := rfl
  have hbig : 255 ≤ 4
      + (if (NightlightState.mk 0 true (List.replicate 249 0)).is_enabled then 2 else 0)
      + (NightlightState.mk 0 true (List.replicate 249 0)).remaining_data.length := by
    simp only [e1, e2, List.length_replicate, if_true]
    norm_num
  exact ⟨hbig,
    (claim_c9_state_length_overflow (NightlightState.mk 0 true (List.replicate 249 0))).2.1 hbig⟩

/-! ### Claim C10: the array-conversion error branch is dead -/

theorem slice?_error_oob (data : Bytes) (a b : Nat) (e : RunError)
    (h : slice? data a b = .error e) : e = .oob := by
  unfold slice? at h
  split_ifs at h <;>
    first
    | (injection h with h1
       exact h1.symm)
    | injection h

theorem slice?_ok_length (data : Bytes) (a n : Nat) (s : Bytes)
    (h : slice? data a (a + n) = .ok s) : s.length = n := by
  unfold slice? at h
  split_ifs at h with hc
  injection h with h1
  rw [← h1]
  simp only [List.length_take, List.length_drop]
  omega

/-- Claim C10: in both fixed-width-field parsers the
`DeserializationError.SliceArrayConversion` branch is unreachable: whenever the
slice for the timestamp or the color-temperature value is extracted without an
out-of-bounds failure, its length already equals the target array length, so
the `try_into` conversion never fails; no input makes either parser return
`SliceArrayConversion`. -/
theorem claim_c10_slice_conversion_unreachable (data : Bytes) (pos : Nat) :
    parse_last_modified_timestamp_block data pos
      ≠ .error (.err .SliceArrayConversion)
    ∧ NightlightSettings.parse_color_temperature_block data pos
      ≠ .error (.err .SliceArrayConversion) := by
  constructor
  · simp only [parse_last_modified_timestamp_block]
    cases h1 : slice? data pos (pos + TIMESTAMP_HEADER_BYTES.length) with
    | error e =>
      have he : e = .oob := slice?_error_oob _ _ _ _ h1
      subst he
      simp [ebind_err]
    | ok s1 =>
      simp only [h1, ebind_ok]
      by_cases hs1 : s1 ≠ TIMESTAMP_HEADER_BYTES
      · rw [if_pos hs1]
        simp
      · rw [if_neg hs1]
        cases h2 : slice? data (pos + TIMESTAMP_HEADER_BYTES.length)
            (pos + TIMESTAMP_HEADER_BYTES.length + TIMESTAMP_PREFIX_BYTES.length) with
        | error e =>
          have he : e = .oob := slice?_error_oob _ _ _ _ h2
          subst he
          simp [ebind_err]
        | ok s2 =>
          simp only [h2, ebind_ok]
          by_cases hs2 : s2 ≠ TIMESTAMP_PREFIX_BYTES
          · rw [if_pos hs2]
            simp
          · rw [if_neg hs2]
            cases h3 : slice? data
                (pos + TIMESTAMP_HEADER_BYTES.length + TIMESTAMP_PREFIX_BYTES.length)
                (pos + TIMESTAMP_HEADER_BYTES.length + TIMESTAMP_PREFIX_BYTES.length
                  + TIMESTAMP_SIZE) with
            | error e =>
              have he : e = .oob := slice?_error_oob _ _ _ _ h3
              subst he
              simp [ebind_err]
            | ok s3 =>
              have hlen3 : s3.length = TIMESTAMP_SIZE := slice?_ok_length _ _ _ _ h3
              simp only [h3, ebind_ok]
              rw [show try_into_array s3 TIMESTAMP_SIZE = .ok s3 by
                unfold try_into_array
                rw [if_pos hlen3]]
              rw [ebind_ok]
              cases h4 : slice? data
                  (pos + TIMESTAMP_HEADER_BYTES.length + TIMESTAMP_PREFIX_BYTES.length
                    + TIMESTAMP_SIZE)
                  (pos + TIMESTAMP_HEADER_BYTES.length + TIMESTAMP_PREFIX_BYTES.length
                    + TIMESTAMP_SIZE + TIMESTAMP_SUFFIX_BYTES.length) with
              | error e =>
                have he : e = .oob := slice?_error_oob _ _ _ _ h4
                subst he
                simp [ebind_err]
              | ok s4 =>
                simp only [h4, ebind_ok]
                by_cases hs4 : s4 ≠ TIMESTAMP_SUFFIX_BYTES
                · rw [if_pos hs4]
                  simp
                · rw [if_neg hs4]
                  intro hc
                  exact Except.noConfusion hc
  · simp only [NightlightSettings.parse_color_temperature_block]
    cases h1 : slice? data pos (pos + COLOR_TEMPERATURE_PREFIX_BYTES.length) with
    | error e =>
      have he : e = .oob := slice?_error_oob _ _ _ _ h1
      subst he
      simp [ebind_err]
    | ok s1 =>
      simp only [h1, ebind_ok]
      by_cases hs1 : s1 ≠ COLOR_TEMPERATURE_PREFIX_BYTES
      · rw [if_pos hs1]
        simp
      · rw [if_neg hs1]
        cases h2 : slice? data (pos + COLOR_TEMPERATURE_PREFIX_BYTES.length)
            (pos + COLOR_TEMPERATURE_PREFIX_BYTES.length + COLOR_TEMPERATURE_SIZE) with
        | error e =>
          have he : e = .oob := slice?_error_oob _ _ _ _ h2
          subst he
          simp [ebind_err]
        | ok s2 =>
          have hlen2 : s2.length = COLOR_TEMPERATURE_SIZE := slice?_ok_length _ _ _ _ h2
          simp only [h2, ebind_ok]
          rw [show try_into_array s2 COLOR_TEMPERATURE_SIZE = .ok s2 by
            unfold try_into_array
            rw [if_pos hlen2]]
          rw [ebind_ok]
          intro hc
          exact Except.noConfusion hc
